import Mathlib

/-!
# RearViewCamera: `RvcApplication` bootstrap, power-state control and teardown

A shallow embedding of `src/rvcapplication.cpp` (class `togg::rvc::RvcApplication`).

* The four owning handles `m_camera`, `m_dev`, `m_display`, `m_window` form the
  application state `AppState`.
* `cameraOn`, `cameraOff`, `hideWindow`, `teardown` and the frame-ready callback are
  state-passing functions that also return the list of calls they make, in order.
* `initialize()` starts two `std::async` tasks that exchange one value each through
  a `std::promise`/`std::future` pair.  The tasks and the coordinator are embedded
  as small-step programs over a shared state `Boot`; an interleaving is a schedule
  (a list of process picks) that `runSchedule` accepts.

The classes `camera::CameraFeed`, `camera::CameraInput`, `display::Device`,
`display::Display`, `display::Window` and the header `config.h` are not part of the
two source files; what is needed of them is modelled from the specification or
taken as a parameter, and marked so.

Conventions of the bootstrap model:

* a step is one source statement of one thread; `future::get()` can only step once
  its promise holds a value or an exception;
* both tasks count as launched from the start: a task that is launched later only
  steps later, which the schedules already allow;
* the driver calls themselves (`queryInputs`, the constructors, `open`, the
  enumerations) do not throw; the only exceptions are the three `throw`
  statements of the source and the `std::future_error` of a promise set twice;
* undefined behaviour (`front()` of an empty vector, an empty handle dereferenced)
  is a state without a next step for that thread;
* `cameraOn`, `cameraOff`, the frame-ready callback and `teardown` are each one
  atomic event in the steady state.
-/

namespace togg.rvc

/-! ## Data model -/

/-- Type `display::Window::Size`: a width and a height. -/
structure Size where
  width : Nat
  height : Nat
  deriving DecidableEq, Repr

/-- Type `display::Window::Positon` (spelling of the source): an on-screen position. -/
structure Positon where
  x : Nat
  y : Nat
  deriving DecidableEq, Repr

/-- Constant `NUM_FRAME_BUFFERS` of `rvcapplication.cpp`, line 15. -/
def NUM_FRAME_BUFFERS : Nat := 3

/-- Constant `RVC_WINDOW_SIZE` of `rvcapplication.cpp`, line 16. -/
def RVC_WINDOW_SIZE : Size := { width := 897, height := 526 }

/-- Constant `RVC_WINDOW_POS` of `rvcapplication.cpp`, line 17. -/
def RVC_WINDOW_POS : Positon := { x := 1032, y := 57 }

/-- Modelled from the spec: the header `config.h` is missing; its three constants
(camera identity, client id, pipeline index) are taken as parameters. -/
structure Config where
  RVC_CAMERA_ID : String
  WFD_CLIENT_ID : Nat
  WFD_CAMERA_PIPELINE_IDX : Nat
  deriving DecidableEq, Repr

/-- Modelled from the spec: `camera::CameraInput` is missing; per the data model it
is an identity token, an ordered sequence of supported resolutions and an ordered
sequence of supported pixel formats. -/
structure CameraInput where
  id : String
  resolutions : List Size
  pixelFormats : List Nat
  deriving DecidableEq, Repr

/-- Modelled from the spec: `FrameBuffers` is missing; it is the collection of
buffer handles a window allocated, identified here by the window handle that owns
them and their count. -/
structure FrameBuffers where
  owner : Nat
  count : Nat
  deriving DecidableEq, Repr

/-- Modelled from the spec: `display::Device` is missing; it is opened from a
client id. -/
structure Device where
  clientId : Nat
  deriving DecidableEq, Repr

/-- Modelled from the spec: `display::Display` is missing; it borrows a device and
is opened from a display handle. -/
structure Display where
  dev : Device
  handle : Nat
  deriving DecidableEq, Repr

/-- Modelled from the spec: `display::Window` is missing; it records the arguments
of its constructor (`openWindow(Display, WindowHandle, position, size, sourceSize,
pixelFormat, bufferCount)`) and which frame it shows, `none` when hidden. -/
structure Window where
  display : Display
  handle : Nat
  pos : Positon
  size : Size
  sourceSize : Size
  pixelFormat : Nat
  bufferCount : Nat
  shown : Option Nat
  deriving DecidableEq, Repr

/-- Modelled from the spec: `Window.buffers`, the frame buffers the window owns. -/
def Window.buffers (w : Window) : FrameBuffers :=
  { owner := w.handle, count := w.bufferCount }

/-- Modelled from the spec: `Window.hide`. -/
def Window.hide (w : Window) : Window := { w with shown := none }

/-- Modelled from the spec: `Window.showFrame(index)`. -/
def Window.showFrame (w : Window) (bufferIdx : Nat) : Window :=
  { w with shown := some bufferIdx }

/-- Enumeration `camera::CameraFeed::State`; the source names `Paused` and
`Started`, the remaining two states are those of the specification's state machine. -/
inductive FeedState where
  | Closed
  | Started
  | Paused
  | Stopped
  deriving DecidableEq, Repr

/-- Modelled from the spec: `camera::CameraFeed` is missing; it is the capture
pipeline instance: the input it was made for, its state, and the buffers it was
opened against (`none` before `open`). -/
structure CameraFeed where
  input : CameraInput
  state : FeedState
  buffers : Option FrameBuffers
  deriving DecidableEq, Repr

/-- Modelled from the spec: `CameraFeed.open`, "Closed→implicit-ready": binds the
buffers, the state value is left as it is. -/
def CameraFeed.openWith (c : CameraFeed) (b : FrameBuffers) : CameraFeed :=
  { c with buffers := some b }

/-- Modelled from the spec: `CameraFeed.start`, "(→Started)"; `Stopped` is terminal. -/
def CameraFeed.start (c : CameraFeed) : CameraFeed :=
  match c.state with
  | FeedState.Stopped => c
  | _ => { c with state := FeedState.Started }

/-- Modelled from the spec: `CameraFeed.pause`, "(Started→Paused)". -/
def CameraFeed.pause (c : CameraFeed) : CameraFeed :=
  match c.state with
  | FeedState.Started => { c with state := FeedState.Paused }
  | _ => c

/-- Modelled from the spec: `CameraFeed.resume`, "(Paused→Started)". -/
def CameraFeed.resume (c : CameraFeed) : CameraFeed :=
  match c.state with
  | FeedState.Paused => { c with state := FeedState.Started }
  | _ => c

/-- Modelled from the spec: `CameraFeed.stop`, "(any→Stopped, terminal)". -/
def CameraFeed.stop (c : CameraFeed) : CameraFeed :=
  { c with state := FeedState.Stopped }

/-- The four owning handles of `RvcApplication` (`rvcapplication.h`, lines 44-48);
`none` is the empty `std::unique_ptr`. -/
structure AppState where
  m_camera : Option CameraFeed
  m_dev : Option Device
  m_display : Option Display
  m_window : Option Window
  deriving DecidableEq, Repr

/-- State of a default-constructed `RvcApplication`: every handle empty. -/
def AppState.fresh : AppState :=
  { m_camera := none, m_dev := none, m_display := none, m_window := none }

/-- The handles `teardown` resets. -/
inductive Handle where
  | camera
  | window
  | display
  | device
  deriving DecidableEq, Repr

/-- One entry of the call log: a call on the feed or the window, or a
`std::unique_ptr::reset()`; the flag of `reset` tells whether an object was owned,
and so destroyed, by it. -/
inductive Call where
  | feedStart
  | feedResume
  | feedPause
  | feedStop
  | windowHide
  | windowShowFrame (bufferIdx : Nat)
  | reset (h : Handle) (destroyed : Bool)
  deriving DecidableEq, Repr

/-- Whether a log entry reaches a driver object: every call on the feed or the
window does, a `reset()` only when it destroys an object. -/
def Call.isDriverOperation : Call → Bool
  | Call.reset _ destroyed => destroyed
  | _ => true

/-! ## Power-state control and teardown -/

/-- Function `RvcApplication::cameraOn` (lines 28-40), the spec's `activate()`. -/
def cameraOn (s : AppState) : AppState × List Call :=
  match s.m_camera with
  | some cam =>
    if cam.state = FeedState.Paused then
      ({ s with m_camera := some cam.resume }, [Call.feedResume])
    else
      ({ s with m_camera := some cam.start }, [Call.feedStart])
  | none => (s, [])

/-- Function `RvcApplication::hideWindow` (lines 76-81). -/
def hideWindow (s : AppState) : AppState × List Call :=
  match s.m_window with
  | some w => ({ s with m_window := some w.hide }, [Call.windowHide])
  | none => (s, [])

/-- Function `RvcApplication::cameraOff` (lines 42-51), the spec's `deactivate()`. -/
def cameraOff (s : AppState) : AppState × List Call :=
  let r1 : AppState × List Call :=
    match s.m_camera with
    | some cam => ({ s with m_camera := some cam.pause }, [Call.feedPause])
    | none => (s, [])
  let r2 := hideWindow r1.1
  (r2.1, r1.2 ++ r2.2)

/-- Function `RvcApplication::teardown` (lines 64-74): `hideWindow()`, `stop()` on
the feed when there is one, then the four `reset()` calls in source order. -/
def teardown (s : AppState) : AppState × List Call :=
  let r1 := hideWindow s
  let r2 : AppState × List Call :=
    match r1.1.m_camera with
    | some cam => ({ r1.1 with m_camera := some cam.stop }, [Call.feedStop])
    | none => (r1.1, [])
  let s3 : AppState := { r2.1 with m_camera := none }
  let s4 : AppState := { s3 with m_window := none }
  let s5 : AppState := { s4 with m_display := none }
  let s6 : AppState := { s5 with m_dev := none }
  (s6, r1.2 ++ r2.2 ++
    [Call.reset Handle.camera r2.1.m_camera.isSome,
     Call.reset Handle.window s3.m_window.isSome,
     Call.reset Handle.display s4.m_display.isSome,
     Call.reset Handle.device s5.m_dev.isSome])

/-- The frame-ready callback registered by `initCamera` (lines 99-107).  With a
window but no feed the callback dereferences the empty `m_camera`: undefined
behaviour, rendered as `none`. -/
def onFrameReady (bufferIdx : Nat) (s : AppState) : Option (AppState × List Call) :=
  match s.m_window with
  | some w =>
    match s.m_camera with
    | some cam =>
      if cam.state = FeedState.Started then
        some ({ s with m_window := some (w.showFrame bufferIdx) },
          [Call.windowShowFrame bufferIdx])
      else
        some ({ s with m_window := some w.hide }, [Call.windowHide])
    | none => none
  | none => some (s, [])

/-- Whether the window exists and shows a frame. -/
def windowVisible (s : AppState) : Bool :=
  match s.m_window with
  | some w => w.shown.isSome
  | none => false

/-- Whether a feed exists and is in state `Started`. -/
def feedStarted (s : AppState) : Bool :=
  match s.m_camera with
  | some cam => decide (cam.state = FeedState.Started)
  | none => false

/-- The events of the steady state: the two visibility signals, a frame-ready
notification for a buffer index, and the final teardown. -/
inductive Action where
  | activate
  | deactivate
  | frameReady (bufferIdx : Nat)
  | teardown
  deriving DecidableEq, Repr

/-- One event applied to the application state; `none` is undefined behaviour. -/
def applyAction (a : Action) (s : AppState) : Option AppState :=
  match a with
  | Action.activate => some (cameraOn s).1
  | Action.deactivate => some (cameraOff s).1
  | Action.frameReady i => (onFrameReady i s).map Prod.fst
  | Action.teardown => some (teardown s).1

/-- A sequence of events applied in order. -/
def applyActions : List Action → AppState → Option AppState
  | [], s => some s
  | a :: rest, s => (applyAction a s).bind (applyActions rest)

/-! ## Bootstrap: `initialize`, `initCamera`, `initDisplay` -/

/-- The exceptions of the bootstrap: the three `std::runtime_error`s the source
throws ("No RVC camera found", "No displays found", "Expected WFD window not
found"), named as in the specification, and the `std::future_error` that
`set_value`/`set_exception` throw on a promise that already holds a result. -/
inductive BootError where
  | CameraNotFound
  | NoDisplaysFound
  | WindowNotFound
  | PromiseAlreadySatisfied
  deriving DecidableEq, Repr

/-- Shared state of a `std::promise`/`std::future` pair: not ready yet, a value,
or an exception. -/
inductive Shared (α : Type) where
  | pending
  | value (a : α)
  | exception (e : BootError)
  deriving DecidableEq, Repr

/-- Call `std::promise::set_value`: stores the value, or throws when the promise
is already satisfied. -/
def Shared.setValue {α : Type} (p : Shared α) (a : α) : Except BootError (Shared α) :=
  match p with
  | Shared.pending => Except.ok (Shared.value a)
  | _ => Except.error BootError.PromiseAlreadySatisfied

/-- Call `std::promise::set_exception`: stores the exception, or throws when the
promise is already satisfied. -/
def Shared.setException {α : Type} (p : Shared α) (e : BootError) :
    Except BootError (Shared α) :=
  match p with
  | Shared.pending => Except.ok (Shared.exception e)
  | _ => Except.error BootError.PromiseAlreadySatisfied

/-- Modelled from the spec: the camera and display drivers are missing; they are
the enumerations the bootstrap consumes: `CameraManager::queryInputs()` (identity
to input, looked up with `find`), `Display::availableDisplays(Device)` and
`Window::availableWindows(Display)`. -/
structure Drivers where
  queryInputs : List (String × CameraInput)
  availableDisplays : Device → List Nat
  availableWindows : Display → List Nat

/-- The three threads of `initialize()`: the two `std::async` tasks and the caller. -/
inductive Proc where
  | camera
  | display
  | coordinator
  deriving DecidableEq, Repr

/-- What the bootstrap records of its run: a task set the value, or the exception,
of its outgoing promise; a task's `get()` on its incoming future came back (with
the value or by throwing); the window was constructed; `open` was called on the
feed. -/
inductive BootEvent where
  | published (p : Proc)
  | failed (p : Proc)
  | received (p : Proc)
  | windowCreated
  | feedOpened (b : FrameBuffers)
  deriving DecidableEq, Repr

/-- Program counter of the lambda of `initCamera` (lines 88-113), with the locals
that are live at each point. -/
inductive CameraPc where
  /-- Lines 91-95: `queryInputs()`, `find`, the `throw`. -/
  | query
  /-- Lines 96-97: `inputPromise.set_value(rvcInput)`. -/
  | publish (rvcInput : CameraInput)
  /-- Line 98: `m_camera = std::make_unique<camera::CameraFeed>(rvcInput)`. -/
  | create (rvcInput : CameraInput)
  /-- Line 99, the argument `buffers.get()`. -/
  | await
  /-- Line 99, the call `m_camera->open(...)`, then `return true`. -/
  | openFeed (buffers : FrameBuffers)
  /-- Lines 108-110: the `catch` handler, then `return false`. -/
  | handler (e : BootError)
  | finished
  deriving DecidableEq, Repr

/-- Program counter of the lambda of `initDisplay` (lines 122-151), with the
locals that are live at each point. -/
inductive DisplayPc where
  /-- Line 125: `m_dev = std::make_unique<display::Device>(config::WFD_CLIENT_ID)`. -/
  | device
  /-- Lines 126-129: `availableDisplays(*m_dev)`, the `throw` when empty. -/
  | displays
  /-- Line 130: `m_display = std::make_unique<display::Display>(*m_dev, displays.front())`. -/
  | display (front : Nat)
  /-- Lines 133-136: `availableWindows(*m_display)`, the `throw`. -/
  | windows
  /-- Line 138: `inputConfig.get()`. -/
  | await (windows : List Nat)
  /-- Lines 139-144: the two `front()` calls and the construction of `m_window`. -/
  | window (windows : List Nat) (cameraInput : CameraInput)
  /-- Line 145: `buffersPromise.set_value(m_window->buffers())`, then `return true`. -/
  | publish
  /-- Lines 146-148: the `catch` handler, then `return false`. -/
  | handler (e : BootError)
  | finished
  deriving DecidableEq, Repr

/-- How `initialize()` ends for its caller `run()`. -/
inductive InitResult where
  | returned
  | threw (e : BootError)
  deriving DecidableEq, Repr

/-- Program counter of `initialize()` (lines 155-168) once both tasks are launched. -/
inductive CoordinatorPc where
  /-- Line 166: `cameraInit.get()`. -/
  | joinCamera
  /-- Line 167: `displayInit.get()`. -/
  | joinDisplay
  /-- An exception left `cameraInit.get()`: the destructor of `displayInit`, a future
  of `std::async`, waits for the display task before the exception reaches the caller. -/
  | unwinding (e : BootError)
  | finished (r : InitResult)
  deriving DecidableEq, Repr

/-- Function `RvcApplication::run` (lines 53-62) up to the event pump: the pump
`m_ppsManager.run()` is entered exactly when `initialize()` returns. -/
def eventPumpStarts : InitResult → Bool
  | InitResult.returned => true
  | InitResult.threw _ => false

/-- State shared by the three threads during `initialize()`: the owning handles,
the two promise/future pairs (`inputChannel` from camera to display,
`buffersChannel` from display to camera), each thread's program counter, the two
futures `std::async` returned, and the record of events, newest first. -/
structure Boot where
  app : AppState
  inputChannel : Shared CameraInput
  buffersChannel : Shared FrameBuffers
  cameraPc : CameraPc
  displayPc : DisplayPc
  cameraInit : Shared Bool
  displayInit : Shared Bool
  coordinator : CoordinatorPc
  history : List BootEvent
  deriving DecidableEq, Repr

/-- State at line 166, on a freshly constructed application: both tasks launched,
nothing executed. -/
def Boot.initial : Boot :=
  { app := AppState.fresh
    inputChannel := Shared.pending
    buffersChannel := Shared.pending
    cameraPc := CameraPc.query
    displayPc := DisplayPc.device
    cameraInit := Shared.pending
    displayInit := Shared.pending
    coordinator := CoordinatorPc.joinCamera
    history := [] }

/-- One step of the lambda of `initCamera`.  `none`: the task cannot step, because
it is finished, because `buffers.get()` is not ready, or because the next statement
would dereference an empty handle. -/
def stepCamera (cfg : Config) (drv : Drivers) (s : Boot) : Option Boot :=
  match s.cameraPc with
  | CameraPc.query =>
    match drv.queryInputs.lookup cfg.RVC_CAMERA_ID with
    | some rvcInput => some { s with cameraPc := CameraPc.publish rvcInput }
    | none => some { s with cameraPc := CameraPc.handler BootError.CameraNotFound }
  | CameraPc.publish rvcInput =>
    match s.inputChannel.setValue rvcInput with
    | Except.ok ch =>
      some { s with inputChannel := ch, cameraPc := CameraPc.create rvcInput,
                    history := BootEvent.published Proc.camera :: s.history }
    | Except.error e => some { s with cameraPc := CameraPc.handler e }
  | CameraPc.create rvcInput =>
    some { s with
      app := { s.app with
        m_camera := some { input := rvcInput, state := FeedState.Closed, buffers := none } },
      cameraPc := CameraPc.await }
  | CameraPc.await =>
    match s.buffersChannel with
    | Shared.pending => none
    | Shared.value b =>
      some { s with cameraPc := CameraPc.openFeed b,
                    history := BootEvent.received Proc.camera :: s.history }
    | Shared.exception e =>
      some { s with cameraPc := CameraPc.handler e,
                    history := BootEvent.received Proc.camera :: s.history }
  | CameraPc.openFeed b =>
    match s.app.m_camera with
    | some cam =>
      some { s with
        app := { s.app with m_camera := some (cam.openWith b) },
        cameraPc := CameraPc.finished,
        cameraInit := Shared.value true,
        history := BootEvent.feedOpened b :: s.history }
    | none => none
  | CameraPc.handler e =>
    match s.inputChannel.setException e with
    | Except.ok ch =>
      some { s with inputChannel := ch, cameraPc := CameraPc.finished,
                    cameraInit := Shared.value false,
                    history := BootEvent.failed Proc.camera :: s.history }
    | Except.error e2 =>
      some { s with cameraPc := CameraPc.finished, cameraInit := Shared.exception e2 }
  | CameraPc.finished => none

/-- One step of the lambda of `initDisplay`.  `none`: the task cannot step, because
it is finished, because `inputConfig.get()` is not ready, or because the next
statement has undefined behaviour (`front()` of an empty vector, an index out of
range, an empty handle dereferenced). -/
def stepDisplay (cfg : Config) (drv : Drivers) (s : Boot) : Option Boot :=
  match s.displayPc with
  | DisplayPc.device =>
    some { s with app := { s.app with m_dev := some { clientId := cfg.WFD_CLIENT_ID } },
                  displayPc := DisplayPc.displays }
  | DisplayPc.displays =>
    match s.app.m_dev with
    | some dev =>
      match drv.availableDisplays dev with
      | [] => some { s with displayPc := DisplayPc.handler BootError.NoDisplaysFound }
      | front :: _ => some { s with displayPc := DisplayPc.display front }
    | none => none
  | DisplayPc.display front =>
    match s.app.m_dev with
    | some dev =>
      some { s with app := { s.app with m_display := some { dev := dev, handle := front } },
                    displayPc := DisplayPc.windows }
    | none => none
  | DisplayPc.windows =>
    match s.app.m_display with
    | some d =>
      let windows := drv.availableWindows d
      if windows.isEmpty || decide (windows.length ≤ cfg.WFD_CAMERA_PIPELINE_IDX) then
        some { s with displayPc := DisplayPc.handler BootError.WindowNotFound }
      else
        some { s with displayPc := DisplayPc.await windows }
    | none => none
  | DisplayPc.await windows =>
    match s.inputChannel with
    | Shared.pending => none
    | Shared.value cameraInput =>
      some { s with displayPc := DisplayPc.window windows cameraInput,
                    history := BootEvent.received Proc.display :: s.history }
    | Shared.exception e =>
      some { s with displayPc := DisplayPc.handler e,
                    history := BootEvent.received Proc.display :: s.history }
  | DisplayPc.window windows cameraInput =>
    match cameraInput.resolutions, cameraInput.pixelFormats, s.app.m_display,
          windows[cfg.WFD_CAMERA_PIPELINE_IDX]? with
    | resulution :: _, pixelFormat :: _, some d, some wh =>
      some { s with
        app := { s.app with
          m_window := some
            { display := d, handle := wh, pos := RVC_WINDOW_POS, size := RVC_WINDOW_SIZE,
              sourceSize := { width := resulution.width, height := resulution.height },
              pixelFormat := pixelFormat, bufferCount := NUM_FRAME_BUFFERS, shown := none } },
        displayPc := DisplayPc.publish,
        history := BootEvent.windowCreated :: s.history }
    | _, _, _, _ => none
  | DisplayPc.publish =>
    match s.app.m_window with
    | some w =>
      match s.buffersChannel.setValue w.buffers with
      | Except.ok ch =>
        some { s with buffersChannel := ch, displayPc := DisplayPc.finished,
                      displayInit := Shared.value true,
                      history := BootEvent.published Proc.display :: s.history }
      | Except.error e => some { s with displayPc := DisplayPc.handler e }
    | none => none
  | DisplayPc.handler e =>
    match s.buffersChannel.setException e with
    | Except.ok ch =>
      some { s with buffersChannel := ch, displayPc := DisplayPc.finished,
                    displayInit := Shared.value false,
                    history := BootEvent.failed Proc.display :: s.history }
    | Except.error e2 =>
      some { s with displayPc := DisplayPc.finished, displayInit := Shared.exception e2 }
  | DisplayPc.finished => none

/-- One step of `initialize()` itself, lines 166-167: the two `get()` calls; the
`bool` each returns is discarded, an exception each rethrows leaves `initialize()`. -/
def stepCoordinator (s : Boot) : Option Boot :=
  match s.coordinator with
  | CoordinatorPc.joinCamera =>
    match s.cameraInit with
    | Shared.pending => none
    | Shared.value _ => some { s with coordinator := CoordinatorPc.joinDisplay }
    | Shared.exception e => some { s with coordinator := CoordinatorPc.unwinding e }
  | CoordinatorPc.joinDisplay =>
    match s.displayInit with
    | Shared.pending => none
    | Shared.value _ =>
      some { s with coordinator := CoordinatorPc.finished InitResult.returned }
    | Shared.exception e =>
      some { s with coordinator := CoordinatorPc.finished (InitResult.threw e) }
  | CoordinatorPc.unwinding e =>
    match s.displayInit with
    | Shared.pending => none
    | _ => some { s with coordinator := CoordinatorPc.finished (InitResult.threw e) }
  | CoordinatorPc.finished _ => none

/-- One step of the thread the scheduler picks. -/
def step (cfg : Config) (drv : Drivers) (p : Proc) (s : Boot) : Option Boot :=
  match p with
  | Proc.camera => stepCamera cfg drv s
  | Proc.display => stepDisplay cfg drv s
  | Proc.coordinator => stepCoordinator s

/-- An interleaving: the threads step in the order the schedule lists them.
`none` when the schedule picks a thread that cannot step. -/
def runSchedule (cfg : Config) (drv : Drivers) : List Proc → Boot → Option Boot
  | [], s => some s
  | p :: rest, s => (step cfg drv p s).bind (runSchedule cfg drv rest)

/-- Statements the camera task has left at most. -/
def CameraPc.remaining : CameraPc → Nat
  | CameraPc.query => 6
  | CameraPc.publish _ => 5
  | CameraPc.create _ => 4
  | CameraPc.await => 3
  | CameraPc.openFeed _ => 2
  | CameraPc.handler _ => 1
  | CameraPc.finished => 0

/-- Statements the display task has left at most. -/
def DisplayPc.remaining : DisplayPc → Nat
  | DisplayPc.device => 8
  | DisplayPc.displays => 7
  | DisplayPc.display _ => 6
  | DisplayPc.windows => 5
  | DisplayPc.await _ => 4
  | DisplayPc.window _ _ => 3
  | DisplayPc.publish => 2
  | DisplayPc.handler _ => 1
  | DisplayPc.finished => 0

/-- Statements `initialize()` has left at most. -/
def CoordinatorPc.remaining : CoordinatorPc → Nat
  | CoordinatorPc.joinCamera => 2
  | CoordinatorPc.joinDisplay => 1
  | CoordinatorPc.unwinding _ => 1
  | CoordinatorPc.finished _ => 0

/-- Steps the three threads have left at most. -/
def Boot.remaining (s : Boot) : Nat :=
  s.cameraPc.remaining + s.displayPc.remaining + s.coordinator.remaining

/-- In a record of events (newest first), every occurrence of `b` has an
occurrence of `a` before it in time. -/
def precededBy (a b : BootEvent) : List BootEvent → Bool
  | [] => true
  | e :: older => (e != b || older.contains a) && precededBy a b older

/-- A valid enumeration: the configured camera is found and has a resolution and a
pixel format, there is a display, and the first display's window list reaches the
configured pipeline index. -/
def ValidEnumeration (cfg : Config) (drv : Drivers) : Prop :=
  ∃ (rvcInput : CameraInput) (front : Nat),
    drv.queryInputs.lookup cfg.RVC_CAMERA_ID = some rvcInput ∧
    rvcInput.resolutions ≠ [] ∧ rvcInput.pixelFormats ≠ [] ∧
    (drv.availableDisplays { clientId := cfg.WFD_CLIENT_ID }).head? = some front ∧
    cfg.WFD_CAMERA_PIPELINE_IDX <
      (drv.availableWindows
        { dev := { clientId := cfg.WFD_CLIENT_ID }, handle := front }).length

/-! ## Invariant of the steady state -/

/-- Invariant of the steady state: a window is only there together with a
feed, and it is visible only while the feed is `Started`. -/
def VisibleOnlyStarted (s : AppState) : Prop :=
  (s.m_window.isSome = true → s.m_camera.isSome = true) ∧
  (windowVisible s = true → feedStarted s = true)

/-! ## Invariants of the bootstrap -/

/-- The window `initDisplay` constructs for a display handle, a window handle, a
resolution and a pixel format. -/
def expectedWindow (cfg : Config) (front wh : Nat) (res : Size) (fmt : Nat) : Window :=
  { display := { dev := { clientId := cfg.WFD_CLIENT_ID }, handle := front },
    handle := wh, pos := RVC_WINDOW_POS, size := RVC_WINDOW_SIZE,
    sourceSize := res, pixelFormat := fmt, bufferCount := NUM_FRAME_BUFFERS, shown := none }

/-- Valid enumeration, camera task: what the camera task has written at each of
its program points (`inp` the configured camera's input, `bufs` the buffers of the
window the display task constructs). -/
def cameraOk (inp : CameraInput) (bufs : FrameBuffers) (s : Boot) : Prop :=
  match s.cameraPc with
  | CameraPc.query =>
    s.inputChannel = Shared.pending ∧ s.app.m_camera = none ∧ s.cameraInit = Shared.pending
  | CameraPc.publish i =>
    i = inp ∧ s.inputChannel = Shared.pending ∧ s.app.m_camera = none ∧
      s.cameraInit = Shared.pending
  | CameraPc.create i =>
    i = inp ∧ s.inputChannel = Shared.value inp ∧ s.app.m_camera = none ∧
      s.cameraInit = Shared.pending
  | CameraPc.await =>
    s.inputChannel = Shared.value inp ∧
      s.app.m_camera = some { input := inp, state := FeedState.Closed, buffers := none } ∧
      s.cameraInit = Shared.pending
  | CameraPc.openFeed b =>
    b = bufs ∧ s.inputChannel = Shared.value inp ∧
      s.app.m_camera = some { input := inp, state := FeedState.Closed, buffers := none } ∧
      s.cameraInit = Shared.pending
  | CameraPc.handler _ => False
  | CameraPc.finished =>
    s.inputChannel = Shared.value inp ∧
      s.app.m_camera = some { input := inp, state := FeedState.Closed, buffers := some bufs } ∧
      s.cameraInit = Shared.value true ∧ BootEvent.feedOpened bufs ∈ s.history

/-- Valid enumeration, display task: what the display task has written at each of
its program points (`front` the first display, `win` the window it constructs). -/
def displayOk (cfg : Config) (drv : Drivers) (inp : CameraInput) (front : Nat) (win : Window)
    (s : Boot) : Prop :=
  match s.displayPc with
  | DisplayPc.device =>
    s.buffersChannel = Shared.pending ∧ s.displayInit = Shared.pending
  | DisplayPc.displays =>
    s.buffersChannel = Shared.pending ∧ s.displayInit = Shared.pending ∧
      s.app.m_dev = some { clientId := cfg.WFD_CLIENT_ID }
  | DisplayPc.display f =>
    f = front ∧ s.buffersChannel = Shared.pending ∧ s.displayInit = Shared.pending ∧
      s.app.m_dev = some { clientId := cfg.WFD_CLIENT_ID }
  | DisplayPc.windows =>
    s.buffersChannel = Shared.pending ∧ s.displayInit = Shared.pending ∧
      s.app.m_dev = some { clientId := cfg.WFD_CLIENT_ID } ∧
      s.app.m_display = some { dev := { clientId := cfg.WFD_CLIENT_ID }, handle := front }
  | DisplayPc.await ws =>
    ws = drv.availableWindows { dev := { clientId := cfg.WFD_CLIENT_ID }, handle := front } ∧
      s.buffersChannel = Shared.pending ∧ s.displayInit = Shared.pending ∧
      s.app.m_dev = some { clientId := cfg.WFD_CLIENT_ID } ∧
      s.app.m_display = some { dev := { clientId := cfg.WFD_CLIENT_ID }, handle := front }
  | DisplayPc.window ws i =>
    ws = drv.availableWindows { dev := { clientId := cfg.WFD_CLIENT_ID }, handle := front } ∧
      i = inp ∧ s.buffersChannel = Shared.pending ∧ s.displayInit = Shared.pending ∧
      s.app.m_dev = some { clientId := cfg.WFD_CLIENT_ID } ∧
      s.app.m_display = some { dev := { clientId := cfg.WFD_CLIENT_ID }, handle := front }
  | DisplayPc.publish =>
    s.buffersChannel = Shared.pending ∧ s.displayInit = Shared.pending ∧
      s.app.m_dev = some { clientId := cfg.WFD_CLIENT_ID } ∧
      s.app.m_display = some { dev := { clientId := cfg.WFD_CLIENT_ID }, handle := front } ∧
      s.app.m_window = some win
  | DisplayPc.handler _ => False
  | DisplayPc.finished =>
    s.buffersChannel = Shared.value win.buffers ∧ s.displayInit = Shared.value true ∧
      s.app.m_dev = some { clientId := cfg.WFD_CLIENT_ID } ∧
      s.app.m_display = some { dev := { clientId := cfg.WFD_CLIENT_ID }, handle := front } ∧
      s.app.m_window = some win

/-- Valid enumeration, coordinator: which joins have returned. -/
def coordinatorOk (s : Boot) : Prop :=
  match s.coordinator with
  | CoordinatorPc.joinCamera => True
  | CoordinatorPc.joinDisplay => s.cameraPc = CameraPc.finished
  | CoordinatorPc.unwinding _ => False
  | CoordinatorPc.finished r =>
    r = InitResult.returned ∧ s.cameraPc = CameraPc.finished ∧
      s.displayPc = DisplayPc.finished

/-- Invariant of `initialize()` on a valid enumeration. -/
def ValidInv (cfg : Config) (drv : Drivers) (inp : CameraInput) (front : Nat) (win : Window)
    (s : Boot) : Prop :=
  cameraOk inp win.buffers s ∧ displayOk cfg drv inp front win s ∧ coordinatorOk s



/-! ## The scenarios of the specification -/

/-- Configuration of the scenarios: camera identity "rvc0", pipeline index 1. -/
def scenarioConfig : Config :=
  { RVC_CAMERA_ID := "rvc0", WFD_CLIENT_ID := 7, WFD_CAMERA_PIPELINE_IDX := 1 }

/-- Camera input of the scenarios: "rvc0" with resolution 720x480. -/
def scenarioInput : CameraInput :=
  { id := "rvc0", resolutions := [{ width := 720, height := 480 }], pixelFormats := [4] }

/-- Enumeration of the success scenario: camera "rvc0", one display, two windows. -/
def scenarioDrivers : Drivers :=
  { queryInputs := [("rvc0", scenarioInput)]
    availableDisplays := fun _ => [5]
    availableWindows := fun _ => [10, 11] }

/-- Enumeration of the failure scenario: only a camera "other". -/
def otherCameraDrivers : Drivers :=
  { queryInputs := [("other", { scenarioInput with id := "other" })]
    availableDisplays := fun _ => [5]
    availableWindows := fun _ => [10, 11] }

/-- Enumeration with the camera "rvc0" and no display. -/
def noDisplayDrivers : Drivers :=
  { queryInputs := [("rvc0", scenarioInput)]
    availableDisplays := fun _ => []
    availableWindows := fun _ => [10, 11] }

/-- An interleaving of the success scenario: the camera task runs up to its
`get()`, the display task runs to its end, the camera task finishes, the
coordinator joins both. -/
def scenarioSchedule : List Proc :=
  [Proc.camera, Proc.camera, Proc.camera,
   Proc.display, Proc.display, Proc.display, Proc.display, Proc.display, Proc.display,
   Proc.display,
   Proc.camera, Proc.camera, Proc.coordinator, Proc.coordinator]



/-- Invariant of the record of events, on every enumeration: the camera task's
`get()` comes after its `set_value`, the display task's `set_value` comes after
its `get()`; a task between the two has the first in the record. -/
def historyOk (s : Boot) : Prop :=
  precededBy (BootEvent.published Proc.camera) (BootEvent.received Proc.camera) s.history = true ∧
  precededBy (BootEvent.received Proc.display) (BootEvent.published Proc.display) s.history = true ∧
  (match s.cameraPc with
    | CameraPc.create _ => BootEvent.published Proc.camera ∈ s.history
    | CameraPc.await => BootEvent.published Proc.camera ∈ s.history
    | _ => True) ∧
  (match s.displayPc with
    | DisplayPc.window _ _ => BootEvent.received Proc.display ∈ s.history
    | DisplayPc.publish => BootEvent.received Proc.display ∈ s.history
    | _ => True)

/-- The ordering the specification asks of a task `p`: in the record of events
every `get()` of `p` on its incoming future has a `set_value` of `p` on its
outgoing promise before it. -/
def publishesBeforeReceiving (p : Proc) (history : List BootEvent) : Bool :=
  precededBy (BootEvent.published p) (BootEvent.received p) history



/-- Camera not enumerated, camera task: what the camera task has written at each
of its program points. -/
def absentCameraOk (s : Boot) : Prop :=
  match s.cameraPc with
  | CameraPc.query => s.inputChannel = Shared.pending ∧ s.cameraInit = Shared.pending
  | CameraPc.handler e =>
    e = BootError.CameraNotFound ∧ s.inputChannel = Shared.pending ∧
      s.cameraInit = Shared.pending
  | CameraPc.finished =>
    s.inputChannel = Shared.exception BootError.CameraNotFound ∧
      s.cameraInit = Shared.value false
  | _ => False

/-- Camera not enumerated, display task: what the display task has written at each
of its program points; it never reaches the construction of the window. -/
def absentCameraDisplayOk (s : Boot) : Prop :=
  s.app.m_window = none ∧ BootEvent.windowCreated ∉ s.history ∧
  match s.displayPc with
  | DisplayPc.device => s.buffersChannel = Shared.pending ∧ s.displayInit = Shared.pending
  | DisplayPc.displays =>
    s.buffersChannel = Shared.pending ∧ s.displayInit = Shared.pending ∧
      s.app.m_dev.isSome = true
  | DisplayPc.display _ =>
    s.buffersChannel = Shared.pending ∧ s.displayInit = Shared.pending ∧
      s.app.m_dev.isSome = true
  | DisplayPc.windows =>
    s.buffersChannel = Shared.pending ∧ s.displayInit = Shared.pending ∧
      s.app.m_display.isSome = true
  | DisplayPc.await _ => s.buffersChannel = Shared.pending ∧ s.displayInit = Shared.pending
  | DisplayPc.window _ _ => False
  | DisplayPc.publish => False
  | DisplayPc.handler _ => s.buffersChannel = Shared.pending ∧ s.displayInit = Shared.pending
  | DisplayPc.finished => s.displayInit = Shared.value false

/-- Invariant of `initialize()` when the configured camera is not enumerated. -/
def NoCameraInv (s : Boot) : Prop :=
  absentCameraOk s ∧ absentCameraDisplayOk s ∧ coordinatorOk s

/-- No display enumerated, display task: what the display task has written at
each of its program points. -/
def noDisplayOk (cfg : Config) (s : Boot) : Prop :=
  match s.displayPc with
  | DisplayPc.device => s.buffersChannel = Shared.pending ∧ s.displayInit = Shared.pending
  | DisplayPc.displays =>
    s.buffersChannel = Shared.pending ∧ s.displayInit = Shared.pending ∧
      s.app.m_dev = some { clientId := cfg.WFD_CLIENT_ID }
  | DisplayPc.handler e =>
    e = BootError.NoDisplaysFound ∧ s.buffersChannel = Shared.pending ∧
      s.displayInit = Shared.pending
  | DisplayPc.finished =>
    s.buffersChannel = Shared.exception BootError.NoDisplaysFound ∧
      s.displayInit = Shared.value false
  | _ => False

/-- No display enumerated, camera task: what the camera task has written at each
of its program points; `found` is what the lookup of the configured camera gives.
The feed is never opened. -/
def noDisplayCameraOk (found : Option CameraInput) (s : Boot) : Prop :=
  (∀ b, BootEvent.feedOpened b ∉ s.history) ∧
  (∀ cam, s.app.m_camera = some cam → cam.buffers = none) ∧
  match s.cameraPc with
  | CameraPc.query => s.inputChannel = Shared.pending ∧ s.cameraInit = Shared.pending
  | CameraPc.publish i =>
    found = some i ∧ s.inputChannel = Shared.pending ∧ s.cameraInit = Shared.pending
  | CameraPc.create i =>
    found = some i ∧ s.inputChannel = Shared.value i ∧ s.cameraInit = Shared.pending
  | CameraPc.await =>
    (∃ i, found = some i ∧ s.inputChannel = Shared.value i) ∧ s.cameraInit = Shared.pending
  | CameraPc.openFeed _ => False
  | CameraPc.handler e =>
    s.cameraInit = Shared.pending ∧
      ((found = none ∧ s.inputChannel = Shared.pending) ∨
        (e = BootError.NoDisplaysFound ∧ ∃ i, found = some i ∧ s.inputChannel = Shared.value i))
  | CameraPc.finished =>
    (found = none ∧ s.cameraInit = Shared.value false) ∨
      (found.isSome = true ∧
        s.cameraInit = Shared.exception BootError.PromiseAlreadySatisfied)

/-- No display enumerated, coordinator: which joins are over and how. -/
def noDisplayCoordinatorOk (found : Option CameraInput) (s : Boot) : Prop :=
  match s.coordinator with
  | CoordinatorPc.joinCamera => True
  | CoordinatorPc.joinDisplay => s.cameraPc = CameraPc.finished ∧ found = none
  | CoordinatorPc.unwinding e =>
    e = BootError.PromiseAlreadySatisfied ∧ s.cameraPc = CameraPc.finished ∧
      found.isSome = true
  | CoordinatorPc.finished r =>
    s.cameraPc = CameraPc.finished ∧ s.displayPc = DisplayPc.finished ∧
      ((found = none ∧ r = InitResult.returned) ∨
        (found.isSome = true ∧ r = InitResult.threw BootError.PromiseAlreadySatisfied))

/-- Invariant of `initialize()` when no display is enumerated. -/
def NoDisplayInv (cfg : Config) (found : Option CameraInput) (s : Boot) : Prop :=
  noDisplayCameraOk found s ∧ noDisplayOk cfg s ∧ noDisplayCoordinatorOk found s

/-! # Theorems -/

/-! ## Power-state control: `cameraOn`, `cameraOff` -/

/-- C5: `cameraOn` (the spec's `activate()`) on a `Paused` feed resumes it and
leaves it `Started`; without a feed it returns the state unchanged and makes no
call; on a `Started` feed it calls `start` and leaves the state equal to the state
before the call; from every state, calling it twice gives the state of calling it
once. -/
theorem cameraOn_paused_absent_started (s : AppState) :
    (∀ cam, s.m_camera = some cam → cam.state = FeedState.Paused →
      (cameraOn s).1 = { s with m_camera := some { cam with state := FeedState.Started } } ∧
      (cameraOn s).2 = [Call.feedResume]) ∧
    (s.m_camera = none → cameraOn s = (s, [])) ∧
    (∀ cam, s.m_camera = some cam → cam.state = FeedState.Started →
      (cameraOn s).1 = s ∧ (cameraOn s).2 = [Call.feedStart]) ∧
    (cameraOn (cameraOn s).1).1 = (cameraOn s).1 := by
  obtain ⟨c, d, p, w⟩ := s
  refine ⟨?_, ?_, ?_, ?_⟩
  · intro cam hc hp
    obtain ⟨i, st, b⟩ := cam
    simp only at hc hp
    subst hc hp
    simp [cameraOn, CameraFeed.resume]
  · intro hc
    simp only at hc
    subst hc
    rfl
  · intro cam hc hp
    obtain ⟨i, st, b⟩ := cam
    simp only at hc hp
    subst hc hp
    simp [cameraOn, CameraFeed.start]
  · cases c with
    | none => rfl
    | some cam =>
      obtain ⟨i, st, b⟩ := cam
      cases st <;> simp [cameraOn, CameraFeed.resume, CameraFeed.start]

/-- C5, at a concrete state: a paused feed for camera "rvc0" and no window. -/
theorem cameraOn_paused_absent_started_witness :
    (cameraOn { m_camera := some { input := { id := "rvc0", resolutions := [], pixelFormats := [] },
                                   state := FeedState.Paused, buffers := none },
                m_dev := none, m_display := none, m_window := none }).2 = [Call.feedResume] :=
  ((cameraOn_paused_absent_started _).1 _ rfl rfl).2

/-- C6: `cameraOff` (the spec's `deactivate()`), from every state, returns exactly
the state with `pause` applied to the feed when there is one and `hide` applied to
the window when there is one, device and display untouched, and its call log is
exactly `pause` on the feed when a feed exists followed by `hide` on the window
when a window exists.  So a window that exists is hidden (it shows no frame
afterwards) with or without a feed, a `Started` feed is left `Paused`, `pause` is
called once exactly when a feed exists, `stop` is never called, and the feed's
state is never `Stopped` unless it was before. -/
theorem cameraOff_hides_pauses_never_stops (s : AppState) :
    cameraOff s =
      ({ s with m_camera := s.m_camera.map CameraFeed.pause,
                m_window := s.m_window.map Window.hide },
       (if s.m_camera.isSome then [Call.feedPause] else []) ++
       (if s.m_window.isSome then [Call.windowHide] else [])) ∧
    (∀ w, s.m_window = some w →
      (cameraOff s).1.m_window = some { w with shown := none } ∧
      Call.windowHide ∈ (cameraOff s).2) ∧
    (∀ cam, s.m_camera = some cam → cam.state = FeedState.Started →
      (cameraOff s).1.m_camera = some { cam with state := FeedState.Paused }) ∧
    (∀ cam, s.m_camera = some cam → cam.state ≠ FeedState.Stopped →
      ∃ cam2, (cameraOff s).1.m_camera = some cam2 ∧ cam2.state ≠ FeedState.Stopped) ∧
    windowVisible (cameraOff s).1 = false ∧
    (s.m_window.isSome = true → Call.windowHide ∈ (cameraOff s).2) ∧
    ((cameraOff s).2.count Call.feedPause = if s.m_camera.isSome then 1 else 0) ∧
    Call.feedStop ∉ (cameraOff s).2 ∧
    (cameraOff s).1.m_camera.isSome = s.m_camera.isSome ∧
    (cameraOff s).1.m_dev = s.m_dev ∧ (cameraOff s).1.m_display = s.m_display := by
  obtain ⟨c, d, p, w⟩ := s
  refine ⟨?_, ?_, ?_, ?_, ?_⟩
  · cases c <;> cases w <;> simp [cameraOff, hideWindow]
  · intro w0 hw
    simp only at hw
    subst hw
    cases c <;> simp [cameraOff, hideWindow, Window.hide]
  · intro cam hc hst
    obtain ⟨i, st, b⟩ := cam
    simp only at hc hst
    subst hc hst
    cases w <;> simp [cameraOff, hideWindow, CameraFeed.pause]
  · intro cam hc hst
    obtain ⟨i, st, b⟩ := cam
    simp only at hc hst
    subst hc
    cases w <;> cases st <;> simp_all [cameraOff, hideWindow, CameraFeed.pause]
  · cases c <;> cases w <;>
      simp [cameraOff, hideWindow, windowVisible, Window.hide]

/-- C6, at two concrete states: a window showing frame 2 and no feed, where the
window is hidden and nothing else is called; and a `Started` feed with that
window, where the feed is left `Paused`, the window hidden, and the log is `pause`
then `hide`. -/
theorem cameraOff_hides_pauses_never_stops_witness :
    cameraOff
      { m_camera := none, m_dev := none, m_display := none,
        m_window := some { display := { dev := { clientId := 0 }, handle := 0 }, handle := 1,
                           pos := RVC_WINDOW_POS, size := RVC_WINDOW_SIZE,
                           sourceSize := { width := 720, height := 480 }, pixelFormat := 0,
                           bufferCount := NUM_FRAME_BUFFERS, shown := some 2 } } =
      ({ m_camera := none, m_dev := none, m_display := none,
         m_window := some { display := { dev := { clientId := 0 }, handle := 0 }, handle := 1,
                            pos := RVC_WINDOW_POS, size := RVC_WINDOW_SIZE,
                            sourceSize := { width := 720, height := 480 }, pixelFormat := 0,
                            bufferCount := NUM_FRAME_BUFFERS, shown := none } },
       [Call.windowHide]) ∧
    cameraOff
      { m_camera := some { input := scenarioInput, state := FeedState.Started, buffers := none },
        m_dev := some { clientId := 7 },
        m_display := some { dev := { clientId := 7 }, handle := 5 },
        m_window := some { display := { dev := { clientId := 7 }, handle := 5 }, handle := 11,
                           pos := RVC_WINDOW_POS, size := RVC_WINDOW_SIZE,
                           sourceSize := { width := 720, height := 480 }, pixelFormat := 4,
                           bufferCount := NUM_FRAME_BUFFERS, shown := some 2 } } =
      ({ m_camera := some { input := scenarioInput, state := FeedState.Paused, buffers := none },
         m_dev := some { clientId := 7 },
         m_display := some { dev := { clientId := 7 }, handle := 5 },
         m_window := some { display := { dev := { clientId := 7 }, handle := 5 }, handle := 11,
                            pos := RVC_WINDOW_POS, size := RVC_WINDOW_SIZE,
                            sourceSize := { width := 720, height := 480 }, pixelFormat := 4,
                            bufferCount := NUM_FRAME_BUFFERS, shown := none } },
       [Call.feedPause, Call.windowHide]) :=
  ⟨(cameraOff_hides_pauses_never_stops _).1, (cameraOff_hides_pauses_never_stops _).1⟩

/-! ## Teardown -/

/-- C7: `teardown` on a never-bootstrapped instance (all four handles empty)
returns normally with the state unchanged, and none of the calls it makes reaches a
driver object: the log holds only the four `reset()` calls on empty handles. -/
theorem teardown_fresh_noop :
    (teardown AppState.fresh).1 = AppState.fresh ∧
    (teardown AppState.fresh).2.filter Call.isDriverOperation = [] ∧
    (teardown AppState.fresh).2 =
      [Call.reset Handle.camera false, Call.reset Handle.window false,
       Call.reset Handle.display false, Call.reset Handle.device false] := by
  refine ⟨rfl, rfl, rfl⟩

/-- C8: from every state `teardown` makes its calls in this order: `hide` on the
window if present, `stop` on the feed if present, then `reset()` of the feed, of
the window, of the display and of the device, each destroying its object when
there is one; so `stop` on the feed comes before the `reset()` of the window.
Afterwards all four handles are empty and a second `teardown` changes nothing. -/
theorem teardown_order (s : AppState) :
    (teardown s).2 =
      (if s.m_window.isSome then [Call.windowHide] else []) ++
      (if s.m_camera.isSome then [Call.feedStop] else []) ++
      [Call.reset Handle.camera s.m_camera.isSome,
       Call.reset Handle.window s.m_window.isSome,
       Call.reset Handle.display s.m_display.isSome,
       Call.reset Handle.device s.m_dev.isSome] ∧
    (∃ before after, (teardown s).2 = before ++ Call.reset Handle.window s.m_window.isSome :: after ∧
      Call.reset Handle.window s.m_window.isSome ∉ before ∧
      (s.m_camera.isSome = true → Call.feedStop ∈ before)) ∧
    (teardown s).1 = AppState.fresh ∧
    (teardown (teardown s).1).1 = (teardown s).1 ∧
    (teardown (teardown s).1).2.filter Call.isDriverOperation = [] := by
  obtain ⟨c, d, p, w⟩ := s
  have hstate : (teardown ⟨c, d, p, w⟩).1 = AppState.fresh := by
    cases c <;> cases w <;> rfl
  have hlog : (teardown ⟨c, d, p, w⟩).2 =
      (if w.isSome then [Call.windowHide] else []) ++
      (if c.isSome then [Call.feedStop] else []) ++
      [Call.reset Handle.camera c.isSome, Call.reset Handle.window w.isSome,
       Call.reset Handle.display p.isSome, Call.reset Handle.device d.isSome] := by
    cases c <;> cases w <;> simp [teardown, hideWindow]
  refine ⟨hlog, ?_, hstate, ?_, ?_⟩
  · refine ⟨(if w.isSome then [Call.windowHide] else []) ++
        (if c.isSome then [Call.feedStop] else []) ++ [Call.reset Handle.camera c.isSome],
      [Call.reset Handle.display p.isSome, Call.reset Handle.device d.isSome], ?_, ?_, ?_⟩
    · rw [hlog]; simp
    · cases c <;> cases w <;> simp
    · intro hc
      simp only at hc
      simp [hc]
  · rw [hstate]; rfl
  · rw [hstate]; rfl

/-- C8, at a concrete state: a started feed and a window, no display, no device. -/
theorem teardown_order_witness :
    (teardown
      { m_camera := some { input := { id := "rvc0", resolutions := [], pixelFormats := [] },
                           state := FeedState.Started, buffers := none },
        m_dev := none, m_display := none,
        m_window := some { display := { dev := { clientId := 0 }, handle := 0 }, handle := 1,
                           pos := RVC_WINDOW_POS, size := RVC_WINDOW_SIZE,
                           sourceSize := { width := 720, height := 480 }, pixelFormat := 0,
                           bufferCount := NUM_FRAME_BUFFERS, shown := some 2 } }).2 =
      [Call.windowHide, Call.feedStop, Call.reset Handle.camera true,
       Call.reset Handle.window true, Call.reset Handle.display false,
       Call.reset Handle.device false] :=
  (teardown_order _).1

/-! ## Window visibility in the steady state -/

/-- Every event is defined under the steady-state invariant and keeps it. -/
theorem visibleOnlyStarted_applyAction (a : Action) (s : AppState)
    (h : VisibleOnlyStarted s) :
    ∃ s2, applyAction a s = some s2 ∧ VisibleOnlyStarted s2 := by
  obtain ⟨c, d, p, w⟩ := s
  obtain ⟨h1, h2⟩ := h
  cases a with
  | activate =>
    refine ⟨_, rfl, ?_⟩
    cases c with
    | none => exact ⟨h1, h2⟩
    | some cam =>
      obtain ⟨i, st, b⟩ := cam
      cases w <;> cases st <;>
        simp_all [VisibleOnlyStarted, cameraOn, windowVisible, feedStarted,
          CameraFeed.resume, CameraFeed.start]
  | deactivate =>
    refine ⟨_, rfl, ?_⟩
    cases c <;> cases w <;>
      simp_all [VisibleOnlyStarted, cameraOff, hideWindow, windowVisible, Window.hide]
  | frameReady idx =>
    cases w with
    | none =>
      exact ⟨_, rfl, by simp [VisibleOnlyStarted, windowVisible]⟩
    | some win =>
      cases c with
      | none => simp at h1
      | some cam =>
        obtain ⟨i, st, b⟩ := cam
        cases st <;>
          simp [applyAction, onFrameReady, VisibleOnlyStarted, windowVisible, feedStarted,
            Window.hide, Window.showFrame]
  | teardown =>
    refine ⟨_, rfl, ?_⟩
    cases c <;> cases w <;>
      simp [VisibleOnlyStarted, teardown, hideWindow, windowVisible]

/-- Every sequence of events is defined under the steady-state invariant and
keeps it. -/
theorem visibleOnlyStarted_applyActions (actions : List Action) :
    ∀ s : AppState, VisibleOnlyStarted s →
      ∃ s2, applyActions actions s = some s2 ∧ VisibleOnlyStarted s2 := by
  induction actions with
  | nil => intro s h; exact ⟨s, rfl, h⟩
  | cons a rest ih =>
    intro s h
    obtain ⟨s1, e1, h1⟩ := visibleOnlyStarted_applyAction a s h
    obtain ⟨s2, e2, h2⟩ := ih s1 h1
    exact ⟨s2, by simp [applyActions, e1, e2], h2⟩

/-- C10: from a state with a feed and a hidden window, every sequence of
`cameraOn`, `cameraOff`, frame-ready callbacks (any buffer index) and `teardown`
is defined and ends in a state where the window is visible only if a feed exists
and is `Started`.  Moreover `cameraOn` never touches the window, and the
frame-ready callback calls `showFrame` only when the feed is `Started` and
otherwise leaves the window hidden. -/
theorem window_visible_only_if_started (s0 : AppState) (cam : CameraFeed) (w : Window)
    (hcam : s0.m_camera = some cam) (hwin : s0.m_window = some w) (hidden : w.shown = none)
    (actions : List Action) :
    (∃ s, applyActions actions s0 = some s ∧
      (windowVisible s = true → feedStarted s = true)) ∧
    (∀ s : AppState, (cameraOn s).1.m_window = s.m_window) ∧
    (∀ (idx : Nat) (s s2 : AppState) (calls : List Call),
      onFrameReady idx s = some (s2, calls) →
        (Call.windowShowFrame idx ∈ calls → feedStarted s = true) ∧
        (feedStarted s = false → windowVisible s2 = false ∧
          (s.m_window.isSome = true → calls = [Call.windowHide]))) := by
  refine ⟨?_, ?_, ?_⟩
  · have h0 : VisibleOnlyStarted s0 := by
      obtain ⟨c, d, p, w0⟩ := s0
      simp only at hcam hwin
      subst hcam hwin
      simp [VisibleOnlyStarted, windowVisible, hidden]
    obtain ⟨s, e, h⟩ := visibleOnlyStarted_applyActions actions s0 h0
    exact ⟨s, e, h.2⟩
  · intro s
    obtain ⟨c, d, p, w0⟩ := s
    cases c with
    | none => rfl
    | some cm => simp only [cameraOn]; split <;> rfl
  · intro idx s s2 calls h
    obtain ⟨c, d, p, w0⟩ := s
    cases w0 with
    | none =>
      simp only [onFrameReady, Option.some.injEq, Prod.mk.injEq] at h
      obtain ⟨rfl, rfl⟩ := h
      simp [windowVisible]
    | some win =>
      cases c with
      | none => simp [onFrameReady] at h
      | some cm =>
        obtain ⟨i, st, b⟩ := cm
        cases st <;>
          · simp only [onFrameReady] at h
            simp at h
            obtain ⟨rfl, rfl⟩ := h
            simp [windowVisible, feedStarted, Window.hide]

/-- C10, at a concrete run: a closed feed and a hidden window; activate, frame 0,
deactivate, frame 1, activate, frame 2, teardown, frame 0. -/
theorem window_visible_only_if_started_witness :
    ∃ s, applyActions
        [Action.activate, Action.frameReady 0, Action.deactivate, Action.frameReady 1,
         Action.activate, Action.frameReady 2, Action.teardown, Action.frameReady 0]
        { m_camera := some { input := { id := "rvc0", resolutions := [], pixelFormats := [] },
                             state := FeedState.Closed, buffers := none },
          m_dev := none, m_display := none,
          m_window := some { display := { dev := { clientId := 0 }, handle := 0 }, handle := 1,
                             pos := RVC_WINDOW_POS, size := RVC_WINDOW_SIZE,
                             sourceSize := { width := 720, height := 480 }, pixelFormat := 0,
                             bufferCount := NUM_FRAME_BUFFERS, shown := none } } = some s ∧
      (windowVisible s = true → feedStarted s = true) :=
  (window_visible_only_if_started _ _ _ rfl rfl rfl _).1

/-! ## Interleavings: general facts -/

/-- A camera step uses up one of the steps left. -/
theorem stepCamera_remaining (cfg : Config) (drv : Drivers) (s s2 : Boot)
    (hstep : stepCamera cfg drv s = some s2) : s2.remaining < s.remaining := by
  unfold stepCamera at hstep
  split at hstep <;> (try split at hstep) <;> simp at hstep <;> subst hstep <;>
    simp_all [Boot.remaining, CameraPc.remaining]

/-- A display step uses up one of the steps left. -/
theorem stepDisplay_remaining (cfg : Config) (drv : Drivers) (s s2 : Boot)
    (hstep : stepDisplay cfg drv s = some s2) : s2.remaining < s.remaining := by
  unfold stepDisplay at hstep
  split at hstep <;> (try split at hstep) <;> (try split at hstep) <;>
    simp at hstep <;> (try split at hstep) <;> (try simp at hstep) <;>
    subst hstep <;> simp_all [Boot.remaining, DisplayPc.remaining]

/-- A coordinator step uses up one of the steps left. -/
theorem stepCoordinator_remaining (s s2 : Boot)
    (hstep : stepCoordinator s = some s2) : s2.remaining < s.remaining := by
  unfold stepCoordinator at hstep
  split at hstep <;> (try split at hstep) <;> simp at hstep <;> subst hstep <;>
    simp_all [Boot.remaining, CoordinatorPc.remaining]

/-- Every step uses up one of the steps left. -/
theorem step_remaining (cfg : Config) (drv : Drivers) (p : Proc) (s s2 : Boot)
    (hstep : step cfg drv p s = some s2) : s2.remaining < s.remaining := by
  cases p
  · exact stepCamera_remaining cfg drv s s2 hstep
  · exact stepDisplay_remaining cfg drv s s2 hstep
  · exact stepCoordinator_remaining s s2 hstep

/-- An interleaving is no longer than the steps left at its start. -/
theorem runSchedule_remaining (cfg : Config) (drv : Drivers) (schedule : List Proc) :
    ∀ s s2 : Boot, runSchedule cfg drv schedule s = some s2 →
      schedule.length + s2.remaining ≤ s.remaining := by
  induction schedule with
  | nil =>
    intro s s2 h
    simp only [runSchedule, Option.some.injEq] at h
    subst h
    simp
  | cons p rest ih =>
    intro s s2 h
    simp only [runSchedule] at h
    cases h1 : step cfg drv p s with
    | none => simp [h1] at h
    | some s1 =>
      simp only [h1, Option.some_bind] at h
      have := ih s1 s2 h
      have := step_remaining cfg drv p s s1 h1
      simp only [List.length_cons]
      omega

/-- Running a schedule in two parts. -/
theorem runSchedule_append (cfg : Config) (drv : Drivers) (σ τ : List Proc) :
    ∀ s : Boot, runSchedule cfg drv (σ ++ τ) s =
      (runSchedule cfg drv σ s).bind (runSchedule cfg drv τ) := by
  induction σ with
  | nil => intro s; simp [runSchedule]
  | cons p rest ih =>
    intro s
    simp only [List.cons_append, runSchedule]
    cases step cfg drv p s with
    | none => simp
    | some s1 => simp [ih s1]

/-- A property every step keeps holds along every interleaving. -/
theorem runSchedule_invariant (cfg : Config) (drv : Drivers) (Inv : Boot → Prop)
    (hstep : ∀ p s s2, Inv s → step cfg drv p s = some s2 → Inv s2)
    (schedule : List Proc) :
    ∀ s s2 : Boot, Inv s → runSchedule cfg drv schedule s = some s2 → Inv s2 := by
  induction schedule with
  | nil =>
    intro s s2 hi h
    simp only [runSchedule, Option.some.injEq] at h
    subst h
    exact hi
  | cons p rest ih =>
    intro s s2 hi h
    simp only [runSchedule] at h
    cases h1 : step cfg drv p s with
    | none => simp [h1] at h
    | some s1 =>
      simp only [h1, Option.some_bind] at h
      exact ih s1 s2 (hstep p s s1 hi h1) h

/-- When every step keeps an invariant under which some thread can step unless
`initialize()` is over, every state with the invariant runs on to a state where
`initialize()` is over. -/
theorem runSchedule_completes (cfg : Config) (drv : Drivers) (Inv : Boot → Prop)
    (hstep : ∀ p s s2, Inv s → step cfg drv p s = some s2 → Inv s2)
    (hprog : ∀ s, Inv s → (∀ r, s.coordinator ≠ CoordinatorPc.finished r) →
      ∃ p s2, step cfg drv p s = some s2) :
    ∀ (n : Nat) (s : Boot), s.remaining ≤ n → Inv s →
      ∃ τ s2 r, runSchedule cfg drv τ s = some s2 ∧
        s2.coordinator = CoordinatorPc.finished r := by
  intro n
  induction n with
  | zero =>
    intro s hn hi
    by_cases hfin : ∃ r, s.coordinator = CoordinatorPc.finished r
    · obtain ⟨r, hr⟩ := hfin
      exact ⟨[], s, r, rfl, hr⟩
    · obtain ⟨p, s2, h2⟩ := hprog s hi (fun r hr => hfin ⟨r, hr⟩)
      have := step_remaining cfg drv p s s2 h2
      omega
  | succ n ih =>
    intro s hn hi
    by_cases hfin : ∃ r, s.coordinator = CoordinatorPc.finished r
    · obtain ⟨r, hr⟩ := hfin
      exact ⟨[], s, r, rfl, hr⟩
    · obtain ⟨p, s1, h1⟩ := hprog s hi (fun r hr => hfin ⟨r, hr⟩)
      have hlt := step_remaining cfg drv p s s1 h1
      obtain ⟨τ, s2, r, hrun, hr⟩ := ih s1 (by omega) (hstep p s s1 hi h1)
      exact ⟨p :: τ, s2, r, by simp [runSchedule, h1, hrun], hr⟩

/-! ## Bootstrap on a valid enumeration -/

/-- A camera step keeps the invariant of the valid enumeration. -/
theorem validInv_stepCamera (cfg : Config) (drv : Drivers) (inp : CameraInput)
    (front : Nat) (win : Window)
    (hcam : drv.queryInputs.lookup cfg.RVC_CAMERA_ID = some inp)
    (s s2 : Boot)
    (hinv : ValidInv cfg drv inp front win s)
    (hstep : stepCamera cfg drv s = some s2) :
    ValidInv cfg drv inp front win s2 := by
  obtain ⟨app, A, B, cpc, dpc, ci, di, co, hist⟩ := s
  obtain ⟨mc, md, mp, mw⟩ := app
  obtain ⟨hc, hd, hk⟩ := hinv
  cases cpc with
  | await =>
    cases dpc <;> cases co <;>
      simp_all [stepCamera, cameraOk, displayOk, coordinatorOk]
    all_goals
      subst hstep
      simp_all [ValidInv, cameraOk, displayOk, coordinatorOk]
  | _ =>
    cases co <;>
      simp_all [stepCamera, cameraOk, coordinatorOk, Shared.setValue, Shared.setException,
        CameraFeed.openWith]
    all_goals
      subst hstep
      refine ⟨?_, ?_, ?_⟩
      · simp_all [cameraOk]
      · simpa [displayOk] using hd
      · simp [coordinatorOk]

/-- A display step keeps the invariant of the valid enumeration. -/
theorem validInv_stepDisplay (cfg : Config) (drv : Drivers) (inp : CameraInput)
    (front wh : Nat) (res : Size) (fmt : Nat)
    (hres : inp.resolutions.head? = some res)
    (hfmt : inp.pixelFormats.head? = some fmt)
    (hdisp : (drv.availableDisplays { clientId := cfg.WFD_CLIENT_ID }).head? = some front)
    (hwin : (drv.availableWindows
      { dev := { clientId := cfg.WFD_CLIENT_ID }, handle := front })[cfg.WFD_CAMERA_PIPELINE_IDX]?
        = some wh)
    (s s2 : Boot)
    (hinv : ValidInv cfg drv inp front (expectedWindow cfg front wh res fmt) s)
    (hstep : stepDisplay cfg drv s = some s2) :
    ValidInv cfg drv inp front (expectedWindow cfg front wh res fmt) s2 := by
  obtain ⟨app, A, B, cpc, dpc, ci, di, co, hist⟩ := s
  obtain ⟨mc, md, mp, mw⟩ := app
  obtain ⟨hc, hd, hk⟩ := hinv
  have hlen : cfg.WFD_CAMERA_PIPELINE_IDX < (drv.availableWindows
      { dev := { clientId := cfg.WFD_CLIENT_ID }, handle := front }).length := by
    rcases List.getElem?_eq_some_iff.mp hwin with ⟨h, _⟩
    exact h
  have hne : drv.availableWindows
      { dev := { clientId := cfg.WFD_CLIENT_ID }, handle := front } ≠ [] := by
    intro h
    rw [h] at hlen
    simp at hlen
  cases dpc with
  | await ws =>
    cases cpc <;> cases co <;>
      simp_all [stepDisplay, cameraOk, displayOk, coordinatorOk]
    all_goals
      subst hstep
      simp_all [ValidInv, cameraOk, displayOk, coordinatorOk]
  | displays =>
    obtain ⟨hB, hdi, hdev⟩ := hd
    simp only at hB hdi hdev
    subst hB hdi hdev
    cases hds : drv.availableDisplays { clientId := cfg.WFD_CLIENT_ID } with
    | nil => simp [hds] at hdisp
    | cons f rest =>
      simp only [hds, List.head?_cons, Option.some.injEq] at hdisp
      subst hdisp
      simp only [stepDisplay, hds, Option.some.injEq] at hstep
      subst hstep
      refine ⟨?_, ?_, ?_⟩
      · simpa [cameraOk] using hc
      · simp [displayOk]
      · cases co <;> simp_all [coordinatorOk]
  | windows =>
    obtain ⟨hB, hdi, hdev, hdsp⟩ := hd
    simp only at hB hdi hdev hdsp
    subst hB hdi hdev hdsp
    have hcond : ((drv.availableWindows
        { dev := { clientId := cfg.WFD_CLIENT_ID }, handle := front }).isEmpty ||
        decide ((drv.availableWindows
          { dev := { clientId := cfg.WFD_CLIENT_ID }, handle := front }).length ≤
            cfg.WFD_CAMERA_PIPELINE_IDX)) = false := by
      simp [hne, hlen]
    simp only [stepDisplay, hcond, Bool.false_eq_true, if_false, Option.some.injEq] at hstep
    subst hstep
    refine ⟨?_, ?_, ?_⟩
    · simpa [cameraOk] using hc
    · simp [displayOk]
    · cases co <;> simp_all [coordinatorOk]
  | window ws i =>
    obtain ⟨hws, hi, hB, hdi, hdev, hdsp⟩ := hd
    simp only at hws hi hB hdi hdev hdsp
    subst hws hi hB hdi hdev hdsp
    cases hr : i.resolutions with
    | nil => simp [hr] at hres
    | cons r rs =>
      cases hf : i.pixelFormats with
      | nil => simp [hf] at hfmt
      | cons f fs =>
        simp only [hr, List.head?_cons, Option.some.injEq] at hres
        simp only [hf, List.head?_cons, Option.some.injEq] at hfmt
        subst hres hfmt
        simp only [stepDisplay, hr, hf, hwin, Option.some.injEq] at hstep
        subst hstep
        refine ⟨?_, ?_, ?_⟩
        · simpa [cameraOk] using hc
        · simp [displayOk, expectedWindow]
        · cases co <;> simp_all [coordinatorOk]
  | _ =>
    cases co <;>
      simp_all [stepDisplay, displayOk, coordinatorOk, Shared.setValue, Shared.setException]
    all_goals
      subst hstep
      refine ⟨?_, ?_, ?_⟩
      · simpa [cameraOk] using hc
      · simp_all [displayOk]
      · simp [coordinatorOk]

/-- A coordinator step keeps the invariant of the valid enumeration. -/
theorem validInv_stepCoordinator (cfg : Config) (drv : Drivers) (inp : CameraInput)
    (front : Nat) (win : Window) (s s2 : Boot)
    (hinv : ValidInv cfg drv inp front win s)
    (hstep : stepCoordinator s = some s2) :
    ValidInv cfg drv inp front win s2 := by
  obtain ⟨app, A, B, cpc, dpc, ci, di, co, hist⟩ := s
  obtain ⟨mc, md, mp, mw⟩ := app
  obtain ⟨hc, hd, hk⟩ := hinv
  cases co <;> cases cpc <;> cases dpc <;>
    simp_all [stepCoordinator, cameraOk, displayOk, coordinatorOk]
  all_goals
    subst hstep
    simp_all [ValidInv, cameraOk, displayOk, coordinatorOk]

/-- A list with a head is a cons. -/
theorem head?_eq_some_cons {α : Type} {l : List α} {a : α} (h : l.head? = some a) :
    ∃ rest, l = a :: rest := by
  cases l with
  | nil => simp at h
  | cons b rest =>
    simp only [List.head?_cons, Option.some.injEq] at h
    exact ⟨rest, by rw [h]⟩

/-- Under the invariant of the valid enumeration some thread can step, unless
`initialize()` is over. -/
theorem validInv_progress (cfg : Config) (drv : Drivers) (inp : CameraInput)
    (front wh : Nat) (res : Size) (fmt : Nat)
    (hcam : drv.queryInputs.lookup cfg.RVC_CAMERA_ID = some inp)
    (hres : inp.resolutions.head? = some res)
    (hfmt : inp.pixelFormats.head? = some fmt)
    (hdisp : (drv.availableDisplays { clientId := cfg.WFD_CLIENT_ID }).head? = some front)
    (hwin : (drv.availableWindows
      { dev := { clientId := cfg.WFD_CLIENT_ID }, handle := front })[cfg.WFD_CAMERA_PIPELINE_IDX]?
        = some wh)
    (s : Boot)
    (hinv : ValidInv cfg drv inp front (expectedWindow cfg front wh res fmt) s)
    (hrun : ∀ r, s.coordinator ≠ CoordinatorPc.finished r) :
    ∃ p s2, step cfg drv p s = some s2 := by
  obtain ⟨rs, hrs⟩ := head?_eq_some_cons hres
  obtain ⟨fs, hfs⟩ := head?_eq_some_cons hfmt
  obtain ⟨ds, hds⟩ := head?_eq_some_cons hdisp
  have key : (stepCamera cfg drv s).isSome = true ∨ (stepDisplay cfg drv s).isSome = true ∨
      (stepCoordinator s).isSome = true := by
    obtain ⟨app, A, B, cpc, dpc, ci, di, co, hist⟩ := s
    obtain ⟨mc, md, mp, mw⟩ := app
    obtain ⟨hc, hd, hk⟩ := hinv
    cases cpc with
    | await =>
      cases dpc <;>
        simp_all [stepCamera, stepDisplay, cameraOk, displayOk, Shared.setValue]
      · split <;> simp
    | finished =>
      cases dpc with
      | finished =>
        cases co <;> simp_all [stepCoordinator, cameraOk, displayOk, coordinatorOk]
      | _ =>
        simp_all [stepDisplay, cameraOk, displayOk, Shared.setValue]
        try (split <;> simp)
    | _ => simp_all [stepCamera, cameraOk, Shared.setValue]
  rcases key with h | h | h
  · obtain ⟨s2, h2⟩ := Option.isSome_iff_exists.mp h
    exact ⟨Proc.camera, s2, h2⟩
  · obtain ⟨s2, h2⟩ := Option.isSome_iff_exists.mp h
    exact ⟨Proc.display, s2, h2⟩
  · obtain ⟨s2, h2⟩ := Option.isSome_iff_exists.mp h
    exact ⟨Proc.coordinator, s2, h2⟩

/-- The invariant of the valid enumeration holds at the start. -/
theorem validInv_initial (cfg : Config) (drv : Drivers) (inp : CameraInput) (front : Nat)
    (win : Window) : ValidInv cfg drv inp front win Boot.initial := by
  simp [ValidInv, cameraOk, displayOk, coordinatorOk, Boot.initial, AppState.fresh]

/-- Every step keeps the invariant of the valid enumeration. -/
theorem validInv_reachable (cfg : Config) (drv : Drivers) (inp : CameraInput)
    (front wh : Nat) (res : Size) (fmt : Nat)
    (hcam : drv.queryInputs.lookup cfg.RVC_CAMERA_ID = some inp)
    (hres : inp.resolutions.head? = some res)
    (hfmt : inp.pixelFormats.head? = some fmt)
    (hdisp : (drv.availableDisplays { clientId := cfg.WFD_CLIENT_ID }).head? = some front)
    (hwin : (drv.availableWindows
      { dev := { clientId := cfg.WFD_CLIENT_ID }, handle := front })[cfg.WFD_CAMERA_PIPELINE_IDX]?
        = some wh) :
    (∀ p s s2, ValidInv cfg drv inp front (expectedWindow cfg front wh res fmt) s →
      step cfg drv p s = some s2 →
      ValidInv cfg drv inp front (expectedWindow cfg front wh res fmt) s2) := by
  intro p s s2 hinv hstep
  cases p
  · exact validInv_stepCamera cfg drv inp front _ hcam s s2 hinv hstep
  · exact validInv_stepDisplay cfg drv inp front wh res fmt hres hfmt hdisp hwin s s2 hinv hstep
  · exact validInv_stepCoordinator cfg drv inp front _ s s2 hinv hstep

/-- C3: on an enumeration where the configured camera is found with a first
resolution `res` and a first pixel format `fmt`, a first display `front` exists and
its window list holds `wh` at the configured pipeline index, every interleaving of
`initialize()` has at most 16 steps and extends to one where `initialize()` has
returned; and whenever `initialize()` is over it has returned without error, the
window was constructed from `wh` at position (1032, 57) with size (897, 526),
source size `res`, pixel format `fmt` and 3 buffers, and the feed was opened
against that window's buffers. -/
theorem initialize_valid_constructs_window (cfg : Config) (drv : Drivers)
    (inp : CameraInput) (front wh : Nat) (res : Size) (fmt : Nat)
    (hcam : drv.queryInputs.lookup cfg.RVC_CAMERA_ID = some inp)
    (hres : inp.resolutions.head? = some res)
    (hfmt : inp.pixelFormats.head? = some fmt)
    (hdisp : (drv.availableDisplays { clientId := cfg.WFD_CLIENT_ID }).head? = some front)
    (hwin : (drv.availableWindows
      { dev := { clientId := cfg.WFD_CLIENT_ID }, handle := front })[cfg.WFD_CAMERA_PIPELINE_IDX]?
        = some wh)
    (schedule : List Proc) (s : Boot)
    (hrun : runSchedule cfg drv schedule Boot.initial = some s) :
    schedule.length ≤ 16 ∧
    (∃ rest s2, runSchedule cfg drv (schedule ++ rest) Boot.initial = some s2 ∧
      s2.coordinator = CoordinatorPc.finished InitResult.returned) ∧
    (∀ r, s.coordinator = CoordinatorPc.finished r →
      r = InitResult.returned ∧
      ∃ w : Window, s.app.m_window = some w ∧
        w.display = { dev := { clientId := cfg.WFD_CLIENT_ID }, handle := front } ∧
        w.handle = wh ∧ w.pos = { x := 1032, y := 57 } ∧
        w.size = { width := 897, height := 526 } ∧ w.sourceSize = res ∧
        w.pixelFormat = fmt ∧ w.bufferCount = 3 ∧
        s.app.m_camera =
          some { input := inp, state := FeedState.Closed, buffers := some w.buffers } ∧
        BootEvent.feedOpened w.buffers ∈ s.history) := by
  have hpres := validInv_reachable cfg drv inp front wh res fmt hcam hres hfmt hdisp hwin
  have hinv := runSchedule_invariant cfg drv _ hpres schedule Boot.initial s
    (validInv_initial cfg drv inp front _) hrun
  refine ⟨?_, ?_, ?_⟩
  · have := runSchedule_remaining cfg drv schedule Boot.initial s hrun
    have h16 : Boot.initial.remaining = 16 := rfl
    omega
  · obtain ⟨rest, s2, r, hrest, hfin⟩ :=
      runSchedule_completes cfg drv _ hpres
        (validInv_progress cfg drv inp front wh res fmt hcam hres hfmt hdisp hwin)
        s.remaining s (Nat.le_refl _) hinv
    have hinv2 := runSchedule_invariant cfg drv _ hpres rest s s2 hinv hrest
    refine ⟨rest, s2, ?_, ?_⟩
    · rw [runSchedule_append, hrun]; exact hrest
    · have hk := hinv2.2.2
      simp only [coordinatorOk, hfin] at hk
      rw [hfin, hk.1]
  · intro r hr
    obtain ⟨hc, hd, hk⟩ := hinv
    simp only [coordinatorOk, hr] at hk
    obtain ⟨hr1, hcp, hdp⟩ := hk
    simp only [cameraOk, hcp] at hc
    simp only [displayOk, hdp] at hd
    refine ⟨hr1, expectedWindow cfg front wh res fmt, hd.2.2.2.2, rfl, rfl, rfl, rfl, rfl, rfl,
      rfl, hc.2.1, hc.2.2.2⟩

/-- C3, the scenario of the specification: camera "rvc0" with resolution 720x480,
two windows, pipeline index 1.  The bootstrap returns, the window has source size
720x480 and 3 buffers. -/
theorem initialize_valid_constructs_window_witness :
    ∃ s, runSchedule scenarioConfig scenarioDrivers scenarioSchedule Boot.initial = some s ∧
      s.coordinator = CoordinatorPc.finished InitResult.returned ∧
      ∃ w : Window, s.app.m_window = some w ∧
        w.display = { dev := { clientId := 7 }, handle := 5 } ∧
        w.handle = 11 ∧ w.pos = { x := 1032, y := 57 } ∧
        w.size = { width := 897, height := 526 } ∧
        w.sourceSize = { width := 720, height := 480 } ∧
        w.pixelFormat = 4 ∧ w.bufferCount = 3 ∧
        s.app.m_camera =
          some { input := scenarioInput, state := FeedState.Closed, buffers := some w.buffers } ∧
        BootEvent.feedOpened w.buffers ∈ s.history :=
  ⟨_, rfl, rfl,
    ((initialize_valid_constructs_window scenarioConfig scenarioDrivers scenarioInput 5 11
      { width := 720, height := 480 } 4 rfl rfl rfl rfl rfl scenarioSchedule _ rfl).2.2
        InitResult.returned rfl).2⟩

/-- C4: on a valid enumeration no interleaving of the camera task, the display
task and the coordinator deadlocks: in every state an interleaving reaches, some
thread can step unless `initialize()` is over; the steps taken plus the steps
left never exceed 16; every interleaving extends to one where both tasks have run
to their end and both joins have returned; and when `initialize()` is over both
tasks are at their end and it has returned. -/
theorem initialize_valid_no_deadlock (cfg : Config) (drv : Drivers)
    (hvalid : ValidEnumeration cfg drv)
    (schedule : List Proc) (s : Boot)
    (hrun : runSchedule cfg drv schedule Boot.initial = some s) :
    ((∀ r, s.coordinator ≠ CoordinatorPc.finished r) → ∃ p s2, step cfg drv p s = some s2) ∧
    schedule.length + s.remaining ≤ 16 ∧
    (∃ rest s2, runSchedule cfg drv (schedule ++ rest) Boot.initial = some s2 ∧
      s2.cameraPc = CameraPc.finished ∧ s2.displayPc = DisplayPc.finished ∧
      s2.coordinator = CoordinatorPc.finished InitResult.returned) ∧
    (∀ r, s.coordinator = CoordinatorPc.finished r →
      s.cameraPc = CameraPc.finished ∧ s.displayPc = DisplayPc.finished ∧
      r = InitResult.returned) := by
  obtain ⟨inp, front, hcam, hres0, hfmt0, hdisp, hlen⟩ := hvalid
  obtain ⟨res, hres⟩ : ∃ res, inp.resolutions.head? = some res := by
    cases h : inp.resolutions with
    | nil => exact absurd h hres0
    | cons a l => exact ⟨a, rfl⟩
  obtain ⟨fmt, hfmt⟩ : ∃ fmt, inp.pixelFormats.head? = some fmt := by
    cases h : inp.pixelFormats with
    | nil => exact absurd h hfmt0
    | cons a l => exact ⟨a, rfl⟩
  obtain ⟨wh, hwin⟩ : ∃ wh, (drv.availableWindows
      { dev := { clientId := cfg.WFD_CLIENT_ID }, handle := front })[cfg.WFD_CAMERA_PIPELINE_IDX]?
        = some wh := ⟨_, List.getElem?_eq_getElem hlen⟩
  have hpres := validInv_reachable cfg drv inp front wh res fmt hcam hres hfmt hdisp hwin
  have hprog := validInv_progress cfg drv inp front wh res fmt hcam hres hfmt hdisp hwin
  have hinv := runSchedule_invariant cfg drv _ hpres schedule Boot.initial s
    (validInv_initial cfg drv inp front _) hrun
  refine ⟨hprog s hinv, ?_, ?_, ?_⟩
  · have := runSchedule_remaining cfg drv schedule Boot.initial s hrun
    have h16 : Boot.initial.remaining = 16 := rfl
    omega
  · obtain ⟨rest, s2, r, hrest, hfin⟩ :=
      runSchedule_completes cfg drv _ hpres hprog s.remaining s (Nat.le_refl _) hinv
    have hinv2 := runSchedule_invariant cfg drv _ hpres rest s s2 hinv hrest
    have hk := hinv2.2.2
    simp only [coordinatorOk, hfin] at hk
    refine ⟨rest, s2, ?_, hk.2.1, hk.2.2, ?_⟩
    · rw [runSchedule_append, hrun]; exact hrest
    · rw [hfin, hk.1]
  · intro r hr
    have hk := hinv.2.2
    simp only [coordinatorOk, hr] at hk
    exact ⟨hk.2.1, hk.2.2, hk.1⟩

/-- C4, at a concrete state of the scenario: after three camera steps the camera
task waits in `buffers.get()`, and another thread can step. -/
theorem initialize_valid_no_deadlock_witness :
    ∃ s, runSchedule scenarioConfig scenarioDrivers [Proc.camera, Proc.camera, Proc.camera]
        Boot.initial = some s ∧
      stepCamera scenarioConfig scenarioDrivers s = none ∧
      ∃ p s2, step scenarioConfig scenarioDrivers p s = some s2 :=
  ⟨_, rfl, rfl,
    (initialize_valid_no_deadlock scenarioConfig scenarioDrivers
      ⟨scenarioInput, 5, rfl, by decide, by decide, rfl, by decide⟩
      [Proc.camera, Proc.camera, Proc.camera] _ rfl).1 (by intro r h; cases h)⟩

/-! ## Order of publishing and receiving inside a task -/

/-- Every step keeps the invariant of the record of events. -/
theorem historyOk_step (cfg : Config) (drv : Drivers) (p : Proc) (s s2 : Boot)
    (hinv : historyOk s) (hstep : step cfg drv p s = some s2) : historyOk s2 := by
  obtain ⟨h1, h2, h3, h4⟩ := hinv
  cases p
  · simp only [step] at hstep
    unfold stepCamera at hstep
    split at hstep <;> (try split at hstep) <;> simp at hstep <;> subst hstep <;>
      simp_all [historyOk, precededBy]
  · simp only [step] at hstep
    unfold stepDisplay at hstep
    split at hstep <;> (try split at hstep) <;> (try split at hstep) <;>
      simp at hstep <;> (try split at hstep) <;> (try simp at hstep) <;>
      subst hstep <;> simp_all [historyOk, precededBy]
  · simp only [step] at hstep
    unfold stepCoordinator at hstep
    split at hstep <;> (try split at hstep) <;> simp at hstep <;> subst hstep <;>
      simp_all [historyOk, precededBy]

/-- C9, as the code has it: on every enumeration and in every interleaving, the
camera task sets the value of its outgoing promise before its `get()` on the
incoming future comes back, and the display task's `get()` on its incoming future
comes back before it sets the value of its outgoing promise. -/
theorem camera_publishes_first_display_receives_first (cfg : Config) (drv : Drivers)
    (schedule : List Proc) (s : Boot)
    (hrun : runSchedule cfg drv schedule Boot.initial = some s) :
    publishesBeforeReceiving Proc.camera s.history = true ∧
    precededBy (BootEvent.received Proc.display) (BootEvent.published Proc.display)
      s.history = true := by
  have hinv := runSchedule_invariant cfg drv historyOk (historyOk_step cfg drv) schedule
    Boot.initial s (by simp [historyOk, Boot.initial, precededBy]) hrun
  exact ⟨hinv.1, hinv.2.1⟩

/-- C9, at the scenario: both tasks publish and receive, in the order stated. -/
theorem camera_publishes_first_display_receives_first_witness :
    ∃ s, runSchedule scenarioConfig scenarioDrivers scenarioSchedule Boot.initial = some s ∧
      BootEvent.received Proc.camera ∈ s.history ∧
      BootEvent.published Proc.display ∈ s.history ∧
      publishesBeforeReceiving Proc.camera s.history = true ∧
      precededBy (BootEvent.received Proc.display) (BootEvent.published Proc.display)
        s.history = true :=
  ⟨_, rfl, by decide, by decide,
    camera_publishes_first_display_receives_first scenarioConfig scenarioDrivers
      scenarioSchedule _ rfl⟩

/-- C9 as stated fails for the display task: in the scenario the display task's
`get()` on the camera input comes back while it has not published its buffers. -/
theorem display_task_receives_before_publishing :
    ∃ s, runSchedule scenarioConfig scenarioDrivers scenarioSchedule Boot.initial = some s ∧
      s.coordinator = CoordinatorPc.finished InitResult.returned ∧
      publishesBeforeReceiving Proc.display s.history = false :=
  ⟨_, rfl, rfl, rfl⟩

/-! ## Bootstrap without the configured camera -/

/-- A camera step keeps the invariant of the missing camera. -/
theorem noCameraInv_stepCamera (cfg : Config) (drv : Drivers)
    (habsent : drv.queryInputs.lookup cfg.RVC_CAMERA_ID = none)
    (s s2 : Boot) (hinv : NoCameraInv s)
    (hstep : stepCamera cfg drv s = some s2) : NoCameraInv s2 := by
  obtain ⟨app, A, B, cpc, dpc, ci, di, co, hist⟩ := s
  obtain ⟨mc, md, mp, mw⟩ := app
  obtain ⟨hc, hd, hk⟩ := hinv
  cases cpc with
  | query =>
    simp only [stepCamera, habsent, Option.some.injEq] at hstep
    subst hstep
    refine ⟨?_, ?_, ?_⟩
    · simpa [absentCameraOk] using hc
    · simpa [absentCameraDisplayOk] using hd
    · cases co <;> simp_all [coordinatorOk]
  | _ =>
    clear habsent
    cases co <;>
      simp_all [stepCamera, absentCameraOk, coordinatorOk, Shared.setException]
    all_goals
      subst hstep
      refine ⟨?_, ?_, ?_⟩
      · simp [absentCameraOk]
      · simpa [absentCameraDisplayOk] using hd
      · simp [coordinatorOk]

/-- A display step keeps the invariant of the missing camera. -/
theorem noCameraInv_stepDisplay (cfg : Config) (drv : Drivers)
    (s s2 : Boot) (hinv : NoCameraInv s)
    (hstep : stepDisplay cfg drv s = some s2) : NoCameraInv s2 := by
  obtain ⟨app, A, B, cpc, dpc, ci, di, co, hist⟩ := s
  obtain ⟨mc, md, mp, mw⟩ := app
  obtain ⟨hc, hd, hk⟩ := hinv
  cases dpc with
  | await ws =>
    cases cpc <;> cases co <;>
      simp_all [stepDisplay, absentCameraOk, absentCameraDisplayOk, coordinatorOk]
    all_goals
      subst hstep
      simp_all [NoCameraInv, absentCameraOk, absentCameraDisplayOk, coordinatorOk]
  | displays =>
    cases md with
    | none => simp [absentCameraDisplayOk] at hd
    | some dev =>
      cases hds : drv.availableDisplays dev <;>
        simp only [stepDisplay, hds, Option.some.injEq] at hstep <;>
        subst hstep <;>
        refine ⟨by simpa [absentCameraOk] using hc, ?_, ?_⟩
      · simp_all [absentCameraDisplayOk]
      · cases co <;> simp_all [coordinatorOk]
      · simp_all [absentCameraDisplayOk]
      · cases co <;> simp_all [coordinatorOk]
  | display f =>
    cases md with
    | none => simp [absentCameraDisplayOk] at hd
    | some dev =>
      simp only [stepDisplay, Option.some.injEq] at hstep
      subst hstep
      refine ⟨by simpa [absentCameraOk] using hc, ?_, ?_⟩
      · simp_all [absentCameraDisplayOk]
      · cases co <;> simp_all [coordinatorOk]
  | windows =>
    cases mp with
    | none => simp [absentCameraDisplayOk] at hd
    | some d =>
      simp only [stepDisplay] at hstep
      split at hstep <;>
        simp only [Option.some.injEq] at hstep <;>
        subst hstep <;>
        refine ⟨by simpa [absentCameraOk] using hc, ?_, ?_⟩
      · simp_all [absentCameraDisplayOk]
      · cases co <;> simp_all [coordinatorOk]
      · simp_all [absentCameraDisplayOk]
      · cases co <;> simp_all [coordinatorOk]
  | _ =>
    cases co <;>
      simp_all [stepDisplay, absentCameraDisplayOk, coordinatorOk, Shared.setException]
    all_goals
      subst hstep
      refine ⟨?_, ?_, ?_⟩
      · simpa [absentCameraOk] using hc
      · simp_all [absentCameraDisplayOk]
      · simp [coordinatorOk]

/-- A coordinator step keeps the invariant of the missing camera. -/
theorem noCameraInv_stepCoordinator (s s2 : Boot) (hinv : NoCameraInv s)
    (hstep : stepCoordinator s = some s2) : NoCameraInv s2 := by
  obtain ⟨app, A, B, cpc, dpc, ci, di, co, hist⟩ := s
  obtain ⟨mc, md, mp, mw⟩ := app
  obtain ⟨hc, hd, hk⟩ := hinv
  cases co <;> cases cpc <;> cases dpc <;>
    simp_all [stepCoordinator, absentCameraOk, absentCameraDisplayOk, coordinatorOk]
  all_goals
    subst hstep
    simp_all [NoCameraInv, absentCameraOk, absentCameraDisplayOk, coordinatorOk]

/-- Every step keeps the invariant of the missing camera. -/
theorem noCameraInv_step (cfg : Config) (drv : Drivers)
    (habsent : drv.queryInputs.lookup cfg.RVC_CAMERA_ID = none) :
    ∀ p s s2, NoCameraInv s → step cfg drv p s = some s2 → NoCameraInv s2 := by
  intro p s s2 hinv hstep
  cases p
  · exact noCameraInv_stepCamera cfg drv habsent s s2 hinv hstep
  · exact noCameraInv_stepDisplay cfg drv s s2 hinv hstep
  · exact noCameraInv_stepCoordinator s s2 hinv hstep

/-- Without the camera some thread can step, unless `initialize()` is over. -/
theorem noCameraInv_progress (cfg : Config) (drv : Drivers) (s : Boot)
    (hinv : NoCameraInv s)
    (hrun : ∀ r, s.coordinator ≠ CoordinatorPc.finished r) :
    ∃ p s2, step cfg drv p s = some s2 := by
  have key : (stepCamera cfg drv s).isSome = true ∨ (stepDisplay cfg drv s).isSome = true ∨
      (stepCoordinator s).isSome = true := by
    obtain ⟨app, A, B, cpc, dpc, ci, di, co, hist⟩ := s
    obtain ⟨mc, md, mp, mw⟩ := app
    obtain ⟨hc, hd, hk⟩ := hinv
    cases cpc with
    | query =>
      left
      simp only [stepCamera]
      split <;> rfl
    | handler e =>
      left
      simp only [stepCamera]
      split <;> rfl
    | finished =>
      cases dpc with
      | finished =>
        cases co <;> simp_all [stepCoordinator, absentCameraOk, absentCameraDisplayOk,
          coordinatorOk]
      | displays =>
        right; left
        cases md with
        | none => simp [absentCameraDisplayOk] at hd
        | some dev =>
          simp only [stepDisplay]
          split <;> rfl
      | display f =>
        right; left
        cases md with
        | none => simp [absentCameraDisplayOk] at hd
        | some dev => rfl
      | windows =>
        right; left
        cases mp with
        | none => simp [absentCameraDisplayOk] at hd
        | some d =>
          simp only [stepDisplay]
          split <;> rfl
      | handler e =>
        right; left
        simp only [stepDisplay]
        split <;> rfl
      | _ => simp_all [stepDisplay, absentCameraOk, absentCameraDisplayOk]
    | _ => simp [absentCameraOk] at hc
  rcases key with h | h | h
  · obtain ⟨s2, h2⟩ := Option.isSome_iff_exists.mp h
    exact ⟨Proc.camera, s2, h2⟩
  · obtain ⟨s2, h2⟩ := Option.isSome_iff_exists.mp h
    exact ⟨Proc.display, s2, h2⟩
  · obtain ⟨s2, h2⟩ := Option.isSome_iff_exists.mp h
    exact ⟨Proc.coordinator, s2, h2⟩

/-- C1, what the code does: when the configured camera is not enumerated, whatever
the displays and windows, in every interleaving no window is constructed, and the
interleaving extends to one where `initialize()` is over; but whenever
`initialize()` is over it has returned normally, so `run()` enters the event pump:
the `CameraNotFound` exception sits in the camera promise, both tasks returned
`false`, and the two `get()` calls of `initialize()` discard that. -/
theorem initialize_camera_absent_returns_normally (cfg : Config) (drv : Drivers)
    (habsent : drv.queryInputs.lookup cfg.RVC_CAMERA_ID = none)
    (schedule : List Proc) (s : Boot)
    (hrun : runSchedule cfg drv schedule Boot.initial = some s) :
    s.app.m_window = none ∧ BootEvent.windowCreated ∉ s.history ∧
    (∃ rest s2, runSchedule cfg drv (schedule ++ rest) Boot.initial = some s2 ∧
      s2.coordinator = CoordinatorPc.finished InitResult.returned) ∧
    (∀ r, s.coordinator = CoordinatorPc.finished r →
      r = InitResult.returned ∧ eventPumpStarts r = true ∧
      s.inputChannel = Shared.exception BootError.CameraNotFound ∧
      s.cameraInit = Shared.value false ∧ s.displayInit = Shared.value false) := by
  have hpres := noCameraInv_step cfg drv habsent
  have h0 : NoCameraInv Boot.initial := by
    simp [NoCameraInv, absentCameraOk, absentCameraDisplayOk, coordinatorOk, Boot.initial,
      AppState.fresh]
  have hinv := runSchedule_invariant cfg drv _ hpres schedule Boot.initial s h0 hrun
  refine ⟨hinv.2.1.1, hinv.2.1.2.1, ?_, ?_⟩
  · obtain ⟨rest, s2, r, hrest, hfin⟩ :=
      runSchedule_completes cfg drv _ hpres (noCameraInv_progress cfg drv)
        s.remaining s (Nat.le_refl _) hinv
    have hinv2 := runSchedule_invariant cfg drv _ hpres rest s s2 hinv hrest
    have hk := hinv2.2.2
    simp only [coordinatorOk, hfin] at hk
    refine ⟨rest, s2, ?_, ?_⟩
    · rw [runSchedule_append, hrun]; exact hrest
    · rw [hfin, hk.1]
  · intro r hr
    obtain ⟨hc, hd, hk⟩ := hinv
    simp only [coordinatorOk, hr] at hk
    obtain ⟨hr1, hcp, hdp⟩ := hk
    simp only [absentCameraOk, hcp] at hc
    simp only [absentCameraDisplayOk, hdp] at hd
    subst hr1
    exact ⟨rfl, rfl, hc.1, hc.2, hd.2.2⟩

/-- C1, the scenario of the specification: only a camera "other" is enumerated,
the configured identity is "rvc0".  `initialize()` returns normally and `run()`
enters the event pump. -/
theorem initialize_camera_absent_returns_normally_witness :
    ∃ s, runSchedule scenarioConfig otherCameraDrivers
        [Proc.camera, Proc.camera, Proc.display, Proc.display, Proc.display, Proc.display,
         Proc.display, Proc.display, Proc.coordinator, Proc.coordinator] Boot.initial = some s ∧
      s.coordinator = CoordinatorPc.finished InitResult.returned ∧
      eventPumpStarts InitResult.returned = true ∧
      s.inputChannel = Shared.exception BootError.CameraNotFound ∧
      s.cameraInit = Shared.value false ∧ s.displayInit = Shared.value false :=
  ⟨_, rfl, rfl,
    ((initialize_camera_absent_returns_normally scenarioConfig otherCameraDrivers rfl
      [Proc.camera, Proc.camera, Proc.display, Proc.display, Proc.display, Proc.display,
       Proc.display, Proc.display, Proc.coordinator, Proc.coordinator] _ rfl).2.2.2
        InitResult.returned rfl).2⟩

/-! ## Bootstrap without a display -/

/-- A camera step keeps the invariant of the missing display. -/
theorem noDisplayInv_stepCamera (cfg : Config) (drv : Drivers) (found : Option CameraInput)
    (hfound : drv.queryInputs.lookup cfg.RVC_CAMERA_ID = found)
    (s s2 : Boot) (hinv : NoDisplayInv cfg found s)
    (hstep : stepCamera cfg drv s = some s2) : NoDisplayInv cfg found s2 := by
  obtain ⟨app, A, B, cpc, dpc, ci, di, co, hist⟩ := s
  obtain ⟨mc, md, mp, mw⟩ := app
  obtain ⟨hc, hd, hk⟩ := hinv
  cases cpc with
  | query =>
    simp only [stepCamera, hfound] at hstep
    cases found <;> simp only [Option.some.injEq] at hstep <;> subst hstep <;>
      refine ⟨?_, by simpa [noDisplayOk] using hd, ?_⟩
    · simp_all [noDisplayCameraOk]
    · cases co <;> simp_all [noDisplayCoordinatorOk]
    · simp_all [noDisplayCameraOk]
    · cases co <;> simp_all [noDisplayCoordinatorOk]
  | await =>
    cases dpc <;> cases co <;>
      simp_all [stepCamera, noDisplayCameraOk, noDisplayOk, noDisplayCoordinatorOk]
    all_goals
      subst hstep
      simp_all [NoDisplayInv, noDisplayCameraOk, noDisplayOk, noDisplayCoordinatorOk]
  | handler e =>
    obtain ⟨h1, h2, h3, h4⟩ := hc
    simp only at h1 h2 h3 h4
    subst h3
    have hco : co = CoordinatorPc.joinCamera := by
      cases co <;> simp_all [noDisplayCoordinatorOk]
    subst hco
    rcases h4 with ⟨hf, hA⟩ | ⟨he, i, hf, hA⟩
    · subst hf hA
      simp only [stepCamera, Shared.setException, Option.some.injEq] at hstep
      subst hstep
      refine ⟨?_, by simpa [noDisplayOk] using hd, by simp [noDisplayCoordinatorOk]⟩
      simp only [noDisplayCameraOk]
      refine ⟨?_, h2, by simp⟩
      intro b
      simp [h1 b]
    · subst hf hA
      simp only [stepCamera, Shared.setException, Option.some.injEq] at hstep
      subst hstep
      refine ⟨?_, by simpa [noDisplayOk] using hd, by simp [noDisplayCoordinatorOk]⟩
      simp only [noDisplayCameraOk]
      exact ⟨h1, h2, by simp⟩
  | _ =>
    cases co <;>
      simp_all [stepCamera, noDisplayCameraOk, noDisplayCoordinatorOk, Shared.setValue]
    all_goals
      subst hstep
      refine ⟨?_, ?_, ?_⟩
      · simp_all [noDisplayCameraOk]
      · simpa [noDisplayOk] using hd
      · simp [noDisplayCoordinatorOk]

/-- A display step keeps the invariant of the missing display. -/
theorem noDisplayInv_stepDisplay (cfg : Config) (drv : Drivers) (found : Option CameraInput)
    (hnone : drv.availableDisplays { clientId := cfg.WFD_CLIENT_ID } = [])
    (s s2 : Boot) (hinv : NoDisplayInv cfg found s)
    (hstep : stepDisplay cfg drv s = some s2) : NoDisplayInv cfg found s2 := by
  obtain ⟨app, A, B, cpc, dpc, ci, di, co, hist⟩ := s
  obtain ⟨mc, md, mp, mw⟩ := app
  obtain ⟨hc, hd, hk⟩ := hinv
  cases dpc with
  | displays =>
    obtain ⟨hB, hdi, hdev⟩ := hd
    simp only at hB hdi hdev
    subst hB hdi hdev
    simp only [stepDisplay, hnone, Option.some.injEq] at hstep
    subst hstep
    refine ⟨by simpa [noDisplayCameraOk] using hc, by simp [noDisplayOk], ?_⟩
    cases co <;> simp_all [noDisplayCoordinatorOk]
  | device =>
    simp only [stepDisplay, Option.some.injEq] at hstep
    subst hstep
    refine ⟨by simpa [noDisplayCameraOk] using hc, by simpa [noDisplayOk] using hd, ?_⟩
    cases co <;> simp_all [noDisplayCoordinatorOk]
  | handler e =>
    obtain ⟨he, hB, hdi⟩ := hd
    simp only at he hB hdi
    subst he hB hdi
    simp only [stepDisplay, Shared.setException, Option.some.injEq] at hstep
    subst hstep
    refine ⟨?_, by simp [noDisplayOk], ?_⟩
    · obtain ⟨h1, h2, h3⟩ := hc
      refine ⟨?_, h2, h3⟩
      intro b
      simp [h1 b]
    · cases co <;> simp_all [noDisplayCoordinatorOk]
  | finished => simp [stepDisplay] at hstep
  | _ => simp [noDisplayOk] at hd

/-- A coordinator step keeps the invariant of the missing display. -/
theorem noDisplayInv_stepCoordinator (cfg : Config) (found : Option CameraInput)
    (s s2 : Boot) (hinv : NoDisplayInv cfg found s)
    (hstep : stepCoordinator s = some s2) : NoDisplayInv cfg found s2 := by
  obtain ⟨app, A, B, cpc, dpc, ci, di, co, hist⟩ := s
  obtain ⟨mc, md, mp, mw⟩ := app
  obtain ⟨hc, hd, hk⟩ := hinv
  cases co with
  | joinCamera =>
    cases cpc <;>
      simp_all [stepCoordinator, noDisplayCameraOk, noDisplayCoordinatorOk]
    rcases hc.2.2 with ⟨hf, hci⟩ | ⟨hf, hci⟩
    all_goals
      subst hci
      simp only [Option.some.injEq] at hstep
      subst hstep
      refine ⟨?_, by simpa [noDisplayOk] using hd, ?_⟩
      · simp_all [noDisplayCameraOk]
      · simp_all [noDisplayCoordinatorOk]
  | finished r => simp [stepCoordinator] at hstep
  | _ =>
    cases dpc <;>
      simp_all [stepCoordinator, noDisplayOk, noDisplayCoordinatorOk]
    all_goals
      subst hstep
      refine ⟨?_, by simp [noDisplayOk], ?_⟩
      · simp_all [noDisplayCameraOk]
      · simp_all [noDisplayCoordinatorOk]

/-- Every step keeps the invariant of the missing display. -/
theorem noDisplayInv_step (cfg : Config) (drv : Drivers)
    (hnone : drv.availableDisplays { clientId := cfg.WFD_CLIENT_ID } = []) :
    ∀ p s s2, NoDisplayInv cfg (drv.queryInputs.lookup cfg.RVC_CAMERA_ID) s →
      step cfg drv p s = some s2 →
      NoDisplayInv cfg (drv.queryInputs.lookup cfg.RVC_CAMERA_ID) s2 := by
  intro p s s2 hinv hstep
  cases p
  · exact noDisplayInv_stepCamera cfg drv _ rfl s s2 hinv hstep
  · exact noDisplayInv_stepDisplay cfg drv _ hnone s s2 hinv hstep
  · exact noDisplayInv_stepCoordinator cfg _ s s2 hinv hstep

/-- Without a display some thread can step, unless `initialize()` is over. -/
theorem noDisplayInv_progress (cfg : Config) (drv : Drivers) (found : Option CameraInput)
    (s : Boot) (hinv : NoDisplayInv cfg found s)
    (hrun : ∀ r, s.coordinator ≠ CoordinatorPc.finished r) :
    ∃ p s2, step cfg drv p s = some s2 := by
  have key : (stepCamera cfg drv s).isSome = true ∨ (stepDisplay cfg drv s).isSome = true ∨
      (stepCoordinator s).isSome = true := by
    obtain ⟨app, A, B, cpc, dpc, ci, di, co, hist⟩ := s
    obtain ⟨mc, md, mp, mw⟩ := app
    obtain ⟨hc, hd, hk⟩ := hinv
    cases dpc with
    | device => right; left; rfl
    | displays =>
      right; left
      obtain ⟨_, _, hdev⟩ := hd
      simp only at hdev
      subst hdev
      simp only [stepDisplay]
      split <;> rfl
    | handler e =>
      right; left
      simp only [stepDisplay]
      split <;> rfl
    | finished =>
      cases cpc with
      | query =>
        left
        simp only [stepCamera]
        split <;> rfl
      | publish i =>
        left
        simp only [stepCamera]
        split <;> rfl
      | create i => left; rfl
      | await => left; simp_all [stepCamera, noDisplayOk]
      | openFeed b => simp [noDisplayCameraOk] at hc
      | handler e =>
        left
        simp only [stepCamera]
        split <;> rfl
      | finished =>
        right; right
        cases co <;>
          simp_all [stepCoordinator, noDisplayCameraOk, noDisplayOk, noDisplayCoordinatorOk]
        rcases hc.2.2 with ⟨_, hci⟩ | ⟨_, hci⟩ <;> simp [hci]
    | _ => simp [noDisplayOk] at hd
  rcases key with h | h | h
  · obtain ⟨s2, h2⟩ := Option.isSome_iff_exists.mp h
    exact ⟨Proc.camera, s2, h2⟩
  · obtain ⟨s2, h2⟩ := Option.isSome_iff_exists.mp h
    exact ⟨Proc.display, s2, h2⟩
  · obtain ⟨s2, h2⟩ := Option.isSome_iff_exists.mp h
    exact ⟨Proc.coordinator, s2, h2⟩

/-- C2, what the code does: when no display is enumerated, in every interleaving
`open` is never called on the feed, and the interleaving extends to one where
`initialize()` is over; but whenever `initialize()` is over, the caller does not
see `NoDisplaysFound`: with the configured camera enumerated `initialize()` throws
the `std::future_error` of the camera task's `set_exception` on its already
satisfied promise, without it `initialize()` returns normally.  `NoDisplaysFound`
stays in the buffers promise. -/
theorem initialize_no_display_loses_cause (cfg : Config) (drv : Drivers)
    (hnone : drv.availableDisplays { clientId := cfg.WFD_CLIENT_ID } = [])
    (schedule : List Proc) (s : Boot)
    (hrun : runSchedule cfg drv schedule Boot.initial = some s) :
    (∀ b, BootEvent.feedOpened b ∉ s.history) ∧
    (∀ cam, s.app.m_camera = some cam → cam.buffers = none) ∧
    (∃ rest s2 r, runSchedule cfg drv (schedule ++ rest) Boot.initial = some s2 ∧
      s2.coordinator = CoordinatorPc.finished r) ∧
    (∀ r, s.coordinator = CoordinatorPc.finished r →
      s.buffersChannel = Shared.exception BootError.NoDisplaysFound ∧
      r ≠ InitResult.threw BootError.NoDisplaysFound ∧
      r = (if (drv.queryInputs.lookup cfg.RVC_CAMERA_ID).isSome
            then InitResult.threw BootError.PromiseAlreadySatisfied
            else InitResult.returned)) := by
  have hpres := noDisplayInv_step cfg drv hnone
  have h0 : NoDisplayInv cfg (drv.queryInputs.lookup cfg.RVC_CAMERA_ID) Boot.initial := by
    simp [NoDisplayInv, noDisplayCameraOk, noDisplayOk, noDisplayCoordinatorOk, Boot.initial,
      AppState.fresh]
  have hinv := runSchedule_invariant cfg drv _ hpres schedule Boot.initial s h0 hrun
  refine ⟨hinv.1.1, hinv.1.2.1, ?_, ?_⟩
  · obtain ⟨rest, s2, r, hrest, hfin⟩ :=
      runSchedule_completes cfg drv _ hpres (noDisplayInv_progress cfg drv _)
        s.remaining s (Nat.le_refl _) hinv
    refine ⟨rest, s2, r, ?_, hfin⟩
    rw [runSchedule_append, hrun]; exact hrest
  · intro r hr
    obtain ⟨hc, hd, hk⟩ := hinv
    simp only [noDisplayCoordinatorOk, hr] at hk
    obtain ⟨hcp, hdp, hres⟩ := hk
    simp only [noDisplayOk, hdp] at hd
    refine ⟨hd.1, ?_, ?_⟩
    · rcases hres with ⟨_, h⟩ | ⟨_, h⟩ <;> simp [h]
    · rcases hres with ⟨hf, h⟩ | ⟨hf, h⟩ <;> simp [hf, h]

/-- C2, at a concrete enumeration: camera "rvc0" enumerated, no display.
`initialize()` throws `PromiseAlreadySatisfied`, not `NoDisplaysFound`. -/
theorem initialize_no_display_loses_cause_witness :
    ∃ s, runSchedule scenarioConfig noDisplayDrivers
        [Proc.camera, Proc.camera, Proc.camera, Proc.display, Proc.display, Proc.display,
         Proc.camera, Proc.camera, Proc.coordinator, Proc.coordinator] Boot.initial = some s ∧
      s.coordinator =
        CoordinatorPc.finished (InitResult.threw BootError.PromiseAlreadySatisfied) ∧
      s.buffersChannel = Shared.exception BootError.NoDisplaysFound ∧
      ∀ b, BootEvent.feedOpened b ∉ s.history :=
  ⟨_, rfl, rfl, rfl,
    (initialize_no_display_loses_cause scenarioConfig noDisplayDrivers rfl
      [Proc.camera, Proc.camera, Proc.camera, Proc.display, Proc.display, Proc.display,
       Proc.camera, Proc.camera, Proc.coordinator, Proc.coordinator] _ rfl).1⟩

end togg.rvc
